import Mathlib

set_option linter.unusedVariables false

/-!
Verification development for the c2rust translator core.

This file shallowly embeds `src/ast-importer/src/translator.rs` (the
`WithStmts` combinators and the expression/declaration translator),
`src/rust-refactor/src/transform/ownership.rs` (the variant splitter)
and `src/analysis/runtime/src/mir_loc.rs` (the location-metadata
store), and proves theorems settling claims C1 - C10.

Modelling conventions:

* A Rust panic (from a failing assertion, an `expect`, or an
  unsupported construct) is modelled by the `Except TransErr` monad
  with the `TransErr.panicked` constructor.  A panic aborts the whole
  computation, exactly as unwinding does in the source, which installs
  no handler.
* The translator recursion is braked by an explicit `fuel` argument
  (the source recurses over node ids of an acyclic indexed context);
  `TransErr.outOfFuel` never occurs for fuel larger than the nesting
  depth of the input.
* C expressions and types are represented as trees: node ids of the
  source's append-only indexed context become the nodes themselves.
  Declarations keep integer ids and a lookup table, because
  declarations are shared and referenced by id.
* The `Renamer` and the `TypeConverter` live in files that are not
  part of the sources provided; they are modelled from the spec where
  so marked.
-/

/-- A failure of the embedded computation: `panicked` models a Rust
panic with its message; `outOfFuel` is an artifact of the fuel-based
recursion and never occurs for sufficient fuel. -/
inductive TransErr where
  | panicked (msg : String)
  | outOfFuel
deriving DecidableEq

/-- The mutability marker of the target language. -/
inductive RMut where
  | immut
  | mut
deriving DecidableEq

/-- Target-language binary operators (the `BinOpKind` cases the
translator emits). -/
inductive RBinOp where
  | add | sub | mul | div | rem
  | bitXor | bitAnd | bitOr | shl | shr
  | eq | ne | lt | le | gt | ge
  | andB | orB
deriving DecidableEq

/-- Target-language unary operators. -/
inductive RUnOp where
  | deref | neg | notO
deriving DecidableEq

/-- Target-language types, as produced by the type converter and the
expression translator (`mk().path_ty`, `mk().ptr_ty`, `mk().ref_ty`,
`mk().array_ty`). -/
inductive RTy where
  | pathTy (segs : List String)
  | ptrTy (mutbl : RMut) (ty : RTy)
  | refTy (ty : RTy)
  | arrayTy (elem : RTy) (size : Nat)
deriving DecidableEq

/-- Target-language patterns used by the translator:
`mk().ident_pat` (optionally `mut`) and `mk().ident_ref_pat`
(a `ref mut` binding). -/
inductive RPat where
  | identPat (mutbl : RMut) (name : String)
  | identRefPat (name : String)
deriving DecidableEq

mutual
/-- Target-language expressions: the fragment of `syntax::ast::Expr`
the embedded translator emits.  `pathP` is a path whose last segment
carries type parameters (used for `std::mem::transmute` and
`size_of`/`align_of`). -/
inductive RExpr where
  | pathE (segs : List String)
  | pathP (segs : List String) (tys : List RTy)
  | litInt (n : Nat)
  | litFloatStr (s : String)
  | litStr (s : String)
  | litByteStr (bytes : List Nat)
  | callE (f : RExpr) (args : List RExpr)
  | methodCall (recv : RExpr) (name : String) (args : List RExpr)
  | binaryE (op : RBinOp) (l r : RExpr)
  | assignE (l r : RExpr)
  | assignOpE (op : RBinOp) (l r : RExpr)
  | unaryE (op : RUnOp) (e : RExpr)
  | castE (e : RExpr) (ty : RTy)
  | parenE (e : RExpr)
  | indexE (l r : RExpr)
  | fieldE (e : RExpr) (name : String)
  | addrOf (mutbl : RMut) (e : RExpr)
  | arrayE (es : List RExpr)
  | structE (name : String) (fields : List (String × RExpr))
  | blockE (stmts : List RStmt)
  | panicMac

/-- Target-language statements: expression statements, semicolon
statements and local bindings, as built by `mk().expr_stmt`,
`mk().semi_stmt` and `mk().local_stmt`. -/
inductive RStmt where
  | exprS (e : RExpr)
  | semiS (e : RExpr)
  | localS (pat : RPat) (ty : Option RTy) (init : Option RExpr)
end

/-- Top-level target items produced by `convert_decl`. -/
inductive RItem where
  | structItem (name : String) (fields : List (String × RTy))
  | foreignStatic (mutbl : RMut) (name : String) (ty : RTy)
  | staticItem (externDef : Bool) (mutbl : RMut) (name : String) (ty : RTy) (init : RExpr)
deriving Inhabited

/-- `WithStmts<T>`: a value preceded by zero or more already-ordered
side-effecting statements (translator.rs lines 25-49). -/
structure WithStmts (T : Type) where
  stmts : List RStmt
  val : T

/-- `WithStmts::new`. -/
def WithStmts.new {T : Type} (val : T) : WithStmts T :=
  { stmts := [], val := val }

/-- `WithStmts::and_then`: run the continuation on the value and
append its statements after the current ones. -/
def WithStmts.and_then {T U : Type} (x : WithStmts T) (f : T → WithStmts U) : WithStmts U :=
  let next := f x.val
  { val := next.val, stmts := x.stmts ++ next.stmts }

/-- `WithStmts::map`: transform the value, keep the statements. -/
def WithStmts.map {T U : Type} (x : WithStmts T) (f : T → U) : WithStmts U :=
  { val := f x.val, stmts := x.stmts }

/-- `WithStmts::to_expr`: package statements and value into one block
expression (or just the value when there are no statements). -/
def WithStmts.to_expr (x : WithStmts RExpr) : RExpr :=
  if x.stmts.isEmpty then
    x.val
  else
    RExpr.blockE (x.stmts ++ [RStmt.exprS x.val])

/-- `with_stmts_opt`. -/
def with_stmts_opt {T : Type} (opt : Option (WithStmts T)) : WithStmts (Option T) :=
  match opt with
  | none => WithStmts.new none
  | some x => { stmts := x.stmts, val := some x.val }

/-- Sequencing a whole list of `WithStmts` values using only the
source combinators `and_then` and `map`; used to state the
order-preservation claim at every nesting depth. -/
def WithStmts.seqAll {T : Type} (xs : List (WithStmts T)) : WithStmts (List T) :=
  match xs with
  | [] => WithStmts.new []
  | x :: rest => x.and_then (fun v => (WithStmts.seqAll rest).map (fun vs => v :: vs))

/-- Qualifier set of a C qualified type (`const`, `volatile`). -/
structure CQualifiers where
  is_const : Bool
  is_volatile : Bool
deriving DecidableEq

mutual
/-- C type kinds, as consumed by the translator.  Scalar kinds carry
a bit width so that the wrapping-arithmetic semantics can be stated;
the translator only interrogates kinds through the predicates below,
so this is a faithful abstraction of the source's named scalar
types. -/
inductive CTypeKind where
  | intK (width : Nat)
  | uintK (width : Nat)
  | floatK (width : Nat)
  | voidK
  | pointer (pointee : CQualType)
  | constantArray (elem : CTypeKind) (size : Nat)
  | structK (structId : Nat)
  | functionK (ret : CQualType)

/-- A (type, qualifier set) pair: the source's `CQualTypeId`. -/
inductive CQualType where
  | mkQ (qualifiers : CQualifiers) (ctype : CTypeKind)
end

/-- The type component of a qualified type. -/
def CQualType.ctype : CQualType → CTypeKind
  | .mkQ _ t => t

/-- The qualifier component of a qualified type. -/
def CQualType.qualifiers : CQualType → CQualifiers
  | .mkQ q _ => q

/-- Integral-kind test (signed or unsigned). -/
def CTypeKind.is_integral_type : CTypeKind → Bool
  | .intK _ => true
  | .uintK _ => true
  | _ => false

/-- Unsigned-integral-kind test. -/
def CTypeKind.is_unsigned_integral_type : CTypeKind → Bool
  | .uintK _ => true
  | _ => false

/-- Floating-kind test. -/
def CTypeKind.is_floating_type : CTypeKind → Bool
  | .floatK _ => true
  | _ => false

/-- Pointer-kind test. -/
def CTypeKind.is_pointer : CTypeKind → Bool
  | .pointer _ => true
  | _ => false

/-- C cast kinds dispatched on by `convert_expr`. -/
inductive CastKind where
  | BitCast
  | IntegralToPointer | PointerToIntegral
  | IntegralCast | FloatingCast | FloatingToIntegral | IntegralToFloating
  | LValueToRValue | NoOp | ToVoid
  | FunctionToPointerDecay | ArrayToPointerDecay
  | NullToPointer
  | ToUnion
  | IntegralToBoolean | FloatingToBoolean | BooleanToSignedIntegral
  | FloatingRealToComplex | FloatingComplexToIntegralComplex
  | FloatingComplexCast | FloatingComplexToReal
  | IntegralComplexToReal | IntegralRealToComplex
  | IntegralComplexCast | IntegralComplexToFloatingComplex
  | IntegralComplexToBoolean
deriving DecidableEq

/-- C unary operators handled by `convert_unary_operator`. -/
inductive CUnOp where
  | AddressOf
  | PreIncrement | PreDecrement | PostIncrement | PostDecrement
  | Deref | Plus | Negate | Complement | NotOp
deriving DecidableEq

/-- C binary operators (the `c_ast::BinOp` cases the embedded
fragment covers; the short-circuit `And`/`Or` cases are outside the
embedded fragment). -/
inductive CBinOp where
  | Add | Subtract | Multiply | Divide | Modulus
  | BitXor | ShiftLeft | ShiftRight
  | EqualEqual | NotEqual | Less | Greater | LessEqual | GreaterEqual
  | BitAnd | BitOr
  | Comma
  | Assign
  | AssignAdd | AssignSubtract | AssignMultiply | AssignDivide | AssignModulus
  | AssignBitXor | AssignShiftLeft | AssignShiftRight | AssignBitOr | AssignBitAnd
deriving DecidableEq

/-- `BinOp::underlying_assignment`: the plain operator a compound
assignment applies, `none` for anything else. -/
def CBinOp.underlying_assignment : CBinOp → Option CBinOp
  | .AssignAdd => some .Add
  | .AssignSubtract => some .Subtract
  | .AssignMultiply => some .Multiply
  | .AssignDivide => some .Divide
  | .AssignModulus => some .Modulus
  | .AssignBitXor => some .BitXor
  | .AssignShiftLeft => some .ShiftLeft
  | .AssignShiftRight => some .ShiftRight
  | .AssignBitOr => some .BitOr
  | .AssignBitAnd => some .BitAnd
  | _ => none

/-- C expression nodes: the fragment of `CExprKind` covered by the
embedding.  Sub-expression ids of the source's indexed context are
represented by the sub-trees themselves. -/
inductive CExprKind where
  | declRef (qty : CQualType) (declId : Nat)
  | litInt (qty : CQualType) (val : Nat)
  | implicitCast (qty : CQualType) (e : CExprKind) (kind : CastKind)
  | explicitCast (qty : CQualType) (e : CExprKind) (kind : CastKind)
  | unary (qty : CQualType) (op : CUnOp) (arg : CExprKind)
  | binary (qty : CQualType) (op : CBinOp) (l r : CExprKind)
  | arraySubscript (qty : CQualType) (l r : CExprKind)
  | callK (qty : CQualType) (fn : CExprKind) (args : List CExprKind)
  | initList (qty : CQualType) (ids : List CExprKind)
  | implicitValueInit (qty : CQualType)

/-- `CExprKind::get_qual_type`. -/
def CExprKind.get_qual_type : CExprKind → CQualType
  | .declRef qty _ => qty
  | .litInt qty _ => qty
  | .implicitCast qty _ _ => qty
  | .explicitCast qty _ _ => qty
  | .unary qty _ _ => qty
  | .binary qty _ _ _ => qty
  | .arraySubscript qty _ _ => qty
  | .callK qty _ _ => qty
  | .initList qty _ => qty
  | .implicitValueInit qty => qty

/-- `CExprKind::get_type`. -/
def CExprKind.get_type (e : CExprKind) : CTypeKind :=
  e.get_qual_type.ctype

/-- C declaration kinds covered by the embedding. -/
inductive CDeclKind where
  | structDecl (name : Option String) (fields : List Nat)
  | fieldDecl (name : String) (typ : CQualType)
  | variable (is_static : Bool) ( is_extern : Bool) (ident : String)
             (initializer : Option CExprKind) (typ : CQualType)

/-- `CDeclKind::get_name` ("get-name-if-named" in the spec). -/
def CDeclKind.get_name : CDeclKind → Option String
  | .structDecl name _ => name
  | .fieldDecl name _ => some name
  | .variable _ _ ident _ _ => some ident

/-- The typed AST store: declarations are looked up by integer id
(`ast_context.index`); the top-level declaration ids are ordered. -/
structure TypedAstContext where
  decls : Nat → CDeclKind
  c_decls_top : List Nat

/-- Modelled from the spec: `resolve_type` follows typedefs to an
underlying kind.  The model's type trees already store resolved
kinds (no typedef sugar), so resolution is the identity lookup. -/
def TypedAstContext.resolve_type (_ctx : TypedAstContext) (k : CTypeKind) : CTypeKind :=
  k

/-- `Translation::is_function_pointer`. -/
def is_function_pointer (ctx : TypedAstContext) (typ : CTypeKind) : Bool :=
  match ctx.resolve_type typ with
  | .pointer p =>
      match ctx.resolve_type p.ctype with
      | .functionK _ => true
      | _ => false
  | _ => false

/-- Modelled from the spec: the Renamer (its source file is not among
the provided sources).  A scoped symbol table: an ordered sequence of
mapping frames, innermost first, plus a counter for synthetic
temporaries. -/
structure Renamer where
  scopes : List (List (String × String))
  counter : Nat

/-- Modelled from the spec: a fresh renamer with one (top-level)
scope. -/
def Renamer.new : Renamer :=
  { scopes := [[]], counter := 0 }

/-- Modelled from the spec: `get` resolves innermost-to-outermost. -/
def Renamer.get (r : Renamer) (name : String) : Option String :=
  let rec go : List (List (String × String)) → Option String
    | [] => none
    | frame :: rest =>
        match frame.find? (fun p => p.1 == name) with
        | some p => some p.2
        | none => go rest
  go r.scopes

/-- Modelled from the spec: `insert` binds a name in the innermost
scope, returning nothing (and binding nothing) if the name is already
bound in that exact scope. -/
def Renamer.insert (r : Renamer) (name target : String) : Option String × Renamer :=
  match r.scopes with
  | [] => (none, r)
  | frame :: rest =>
      if (frame.find? (fun p => p.1 == name)).isSome then
        (none, r)
      else
        (some target, { r with scopes := ((name, target) :: frame) :: rest })

/-- Modelled from the spec: `fresh` manufactures a new synthetic
identifier that no renamer output collides with. -/
def Renamer.fresh (r : Renamer) : String × Renamer :=
  ("fresh" ++ toString r.counter, { r with counter := r.counter + 1 })

/-- Modelled from the spec: `add_scope` pushes a frame. -/
def Renamer.add_scope (r : Renamer) : Renamer :=
  { r with scopes := [] :: r.scopes }

/-- Modelled from the spec: `drop_scope` pops the innermost frame. -/
def Renamer.drop_scope (r : Renamer) : Renamer :=
  { r with scopes := r.scopes.tail }

/-- The translation monad: the `RefCell<Renamer>` state of
`Translation` threaded through a computation that may panic. -/
abbrev TransM (α : Type) := StateT Renamer (Except TransErr) α

/-- Throw a panic. -/
def panicT {α : Type} (msg : String) : TransM α :=
  fun _ => Except.error (TransErr.panicked msg)

/-- `Option::expect`: unwrap or panic with the message. -/
def expectT {α : Type} (o : Option α) (msg : String) : TransM α :=
  match o with
  | some a => pure a
  | none => panicT msg

/-- Lift a pure fallible computation. -/
def liftT {α : Type} (e : Except TransErr α) : TransM α :=
  fun r => e.map (fun a => (a, r))

/-- Read-only access to the renamer (`renamer.borrow_mut().get`). -/
def renamerGet (name : String) : TransM (Option String) :=
  fun r => Except.ok (r.get name, r)

/-- `renamer.borrow_mut().fresh()`. -/
def renamerFresh : TransM String :=
  fun r => Except.ok r.fresh

/-- `renamer.borrow_mut().insert(name, target)`. -/
def renamerInsert (name target : String) : TransM (Option String) :=
  fun r => Except.ok (r.insert name target)

/-- All the ways a C expression can be used (translator.rs 179-187). -/
inductive ExprUse where
  | Unused
  | LValue
  | RValue
deriving DecidableEq

/-- `pointer_offset` (translator.rs 70-73): cast the offset to
`isize` and call `.offset` on the pointer expression. -/
def pointer_offset (ptr offset : RExpr) : RExpr :=
  let offset := RExpr.castE offset (RTy.pathTy ["isize"])
  RExpr.methodCall ptr "offset" [offset]

/-- `transmute_expr` (translator.rs 76-85). -/
def transmute_expr (source_ty target_ty : RTy) (expr : RExpr) : RExpr :=
  RExpr.callE (RExpr.pathP ["std", "mem", "transmute"] [source_ty, target_ty]) [expr]

/-- `bool_to_int` (translator.rs 155-157). -/
def bool_to_int (val : RExpr) : RExpr :=
  RExpr.castE val (RTy.pathTy ["libc", "c_int"])

/-- `Translation::panic` (translator.rs 202-204): the sentinel
`panic!()` macro expression for values that must never be used. -/
def translationPanic : RExpr :=
  RExpr.panicMac

/-- Modelled from the spec: the Type Converter (its source file is
not among the provided sources) is a pure function from a C type to
a target type expression; pointers inherit mutability from the
pointee's constness, fixed arrays keep their length, named aggregates
render by reference to the record id. -/
def convert_type : CTypeKind → RTy
  | .intK w => RTy.pathTy ["libc", "int" ++ toString w]
  | .uintK w => RTy.pathTy ["libc", "uint" ++ toString w]
  | .floatK w => RTy.pathTy ["libc", "float" ++ toString w]
  | .voidK => RTy.pathTy ["libc", "c_void"]
  | .pointer (.mkQ q t) =>
      RTy.ptrTy (if q.is_const then RMut.immut else RMut.mut)
                (convert_type t)
  | .constantArray t n => RTy.arrayTy (convert_type t) n
  | .structK sid => RTy.pathTy ["record" ++ toString sid]
  | .functionK _ => RTy.pathTy ["fn"]

/-- `Translation::volatile_write` (translator.rs 584-599). -/
def volatile_write (lhs : RExpr) (lhs_type : CTypeKind) (rhs : RExpr) : RExpr :=
  let addr_lhs :=
    match lhs with
    | .unaryE .deref e => e
    | _ =>
        let addr_lhs := RExpr.addrOf RMut.mut lhs
        let ty := RTy.ptrTy RMut.mut (convert_type lhs_type)
        RExpr.castE addr_lhs ty
  RExpr.callE (RExpr.pathE ["std", "ptr", "write_volatile"]) [addr_lhs, rhs]

/-- `Translation::volatile_read` (translator.rs 602-617). -/
def volatile_read (lhs : RExpr) (lhs_type : CTypeKind) : RExpr :=
  let addr_lhs :=
    match lhs with
    | .unaryE .deref e => e
    | _ =>
        let addr_lhs := RExpr.addrOf RMut.immut lhs
        let ty := RTy.ptrTy RMut.immut (convert_type lhs_type)
        RExpr.castE addr_lhs ty
  RExpr.callE (RExpr.pathE ["std", "ptr", "read_volatile"]) [addr_lhs]

/-- `Translation::implicit_default_expr` (translator.rs 1037-1047). -/
def implicit_default_expr (ctx : TypedAstContext) (ty : CTypeKind) : RExpr :=
  let resolved_ty := ctx.resolve_type ty
  if resolved_ty.is_integral_type then
    RExpr.litInt 0
  else if resolved_ty.is_floating_type then
    RExpr.litFloatStr "0."
  else
    RExpr.callE (RExpr.pathE ["Default", "default"]) []

/-- `Translation::match_bool` (translator.rs 1461-1483). -/
def match_bool (ctx : TypedAstContext) (target : Bool) (ty : CTypeKind) (val : RExpr) : RExpr :=
  let ty := ctx.resolve_type ty
  if ty.is_pointer then
    let res := RExpr.methodCall val "is_null" []
    if target then RExpr.unaryE RUnOp.notO res else res
  else
    let zero :=
      if ty.is_floating_type then RExpr.litFloatStr "0."
      else RExpr.litInt 0
    if target then
      RExpr.binaryE RBinOp.ne zero val
    else
      RExpr.binaryE RBinOp.eq zero val

/-- `Translation::convert_not` (translator.rs 1486-1497). -/
def convert_not (ctx : TypedAstContext) (ty : CTypeKind) (val : RExpr) : RExpr :=
  let ty := ctx.resolve_type ty
  let b :=
    if ty.is_pointer then
      RExpr.methodCall val "is_null" []
    else
      RExpr.binaryE RBinOp.eq (RExpr.litInt 0) val
  RExpr.castE b (RTy.pathTy ["libc", "c_int"])

/-- `Translation::convert_addition` (translator.rs 1409-1428).  Note
the second branch: when only the right operand is a pointer the
source still calls `pointer_offset(lhs, rhs)`, applying `.offset` to
the non-pointer left operand. -/
def convert_addition (ctx : TypedAstContext) (lhs_type_id rhs_type_id : CQualType)
    (lhs rhs : RExpr) : RExpr :=
  let lhs_type := ctx.resolve_type lhs_type_id.ctype
  let rhs_type := ctx.resolve_type rhs_type_id.ctype
  if lhs_type.is_pointer then
    pointer_offset lhs rhs
  else if rhs_type.is_pointer then
    pointer_offset lhs rhs
  else if lhs_type.is_unsigned_integral_type then
    RExpr.methodCall lhs "wrapping_add" [rhs]
  else
    RExpr.binaryE RBinOp.add lhs rhs

/-- `Translation::convert_subtraction` (translator.rs 1430-1458). -/
def convert_subtraction (ctx : TypedAstContext) (ty : RTy)
    (lhs_type_id rhs_type_id : CQualType) (lhs rhs : RExpr) : RExpr :=
  let lhs_type := ctx.resolve_type lhs_type_id.ctype
  let rhs_type := ctx.resolve_type rhs_type_id.ctype
  if rhs_type.is_pointer then
    let offset_opt := RExpr.methodCall rhs "offset_to" [lhs]
    let msg := RExpr.litStr "bad offset_to"
    let offset := RExpr.methodCall offset_opt "expect" [msg]
    RExpr.castE offset ty
  else if lhs_type.is_pointer then
    let neg_rhs := RExpr.unaryE RUnOp.neg rhs
    pointer_offset lhs neg_rhs
  else if lhs_type.is_unsigned_integral_type then
    RExpr.methodCall lhs "wrapping_sub" [rhs]
  else
    RExpr.binaryE RBinOp.sub lhs rhs

/-- `Translation::convert_binary_operator` (translator.rs 1362-1407);
the `unimplemented!` arm becomes a panic value. -/
def convert_binary_operator (ctx : TypedAstContext) (op : CBinOp) (ty : RTy)
    (ctype : CTypeKind) (lhs_type rhs_type : CQualType)
    (lhs rhs : RExpr) : Except TransErr RExpr :=
  let is_unsigned_integral_type := ctype.is_unsigned_integral_type
  match op with
  | .Add => Except.ok (convert_addition ctx lhs_type rhs_type lhs rhs)
  | .Subtract => Except.ok (convert_subtraction ctx ty lhs_type rhs_type lhs rhs)
  | .Multiply =>
      Except.ok <| if is_unsigned_integral_type then
        RExpr.methodCall lhs "wrapping_mul" [rhs]
      else
        RExpr.binaryE RBinOp.mul lhs rhs
  | .Divide =>
      Except.ok <| if is_unsigned_integral_type then
        RExpr.methodCall lhs "wrapping_div" [rhs]
      else
        RExpr.binaryE RBinOp.div lhs rhs
  | .Modulus =>
      Except.ok <| if is_unsigned_integral_type then
        RExpr.methodCall lhs "wrapping_rem" [rhs]
      else
        RExpr.binaryE RBinOp.rem lhs rhs
  | .BitXor => Except.ok (RExpr.binaryE RBinOp.bitXor lhs rhs)
  | .ShiftRight => Except.ok (RExpr.binaryE RBinOp.shr lhs rhs)
  | .ShiftLeft => Except.ok (RExpr.binaryE RBinOp.shl lhs rhs)
  | .EqualEqual => Except.ok (bool_to_int (RExpr.binaryE RBinOp.eq lhs rhs))
  | .NotEqual => Except.ok (bool_to_int (RExpr.binaryE RBinOp.ne lhs rhs))
  | .Less => Except.ok (bool_to_int (RExpr.binaryE RBinOp.lt lhs rhs))
  | .Greater => Except.ok (bool_to_int (RExpr.binaryE RBinOp.gt lhs rhs))
  | .GreaterEqual => Except.ok (bool_to_int (RExpr.binaryE RBinOp.ge lhs rhs))
  | .LessEqual => Except.ok (bool_to_int (RExpr.binaryE RBinOp.le lhs rhs))
  | .BitAnd => Except.ok (RExpr.binaryE RBinOp.bitAnd lhs rhs)
  | .BitOr => Except.ok (RExpr.binaryE RBinOp.bitOr lhs rhs)
  | _ => Except.error (TransErr.panicked "Translation of binary operator not implemented")

/-- `is_lvalue` (translator.rs 1095-1104). -/
def is_lvalue : RExpr → Bool
  | .pathE _ => true
  | .pathP _ _ => true
  | .unaryE .deref _ => true
  | .fieldE _ _ => true
  | .indexE _ _ => true
  | _ => false

/-- `is_simple_lvalue` (translator.rs 1107-1116). -/
def is_simple_lvalue : RExpr → Bool
  | .pathE _ => true
  | .pathP _ _ => true
  | .unaryE .deref e => is_simple_lvalue e
  | .fieldE e _ => is_simple_lvalue e
  | .indexE e _ => is_simple_lvalue e
  | _ => false

/-- The array-to-pointer-decay bypass test of the `ArraySubscript`
case (translator.rs 886): returns the decayed array operand when the
node is an implicit `ArrayToPointerDecay` cast. -/
def decayedArray : CExprKind → Option CExprKind
  | .implicitCast _ arr .ArrayToPointerDecay => some arr
  | _ => none

mutual
/-- `Translation::convert_expr` (translator.rs 628-991), for the
embedded fragment of `CExprKind`.  The first argument is recursion
fuel (see the header); every helper of the translator's recursive
cluster threads it. -/
def convert_expr : Nat → TypedAstContext → ExprUse → CExprKind → TransM (WithStmts RExpr)
  | 0, _, _, _ => fun _ => Except.error TransErr.outOfFuel
  | fuel + 1, ctx, use_, e =>
    match e with
    | .declRef qual_ty decl_id => do
        let varname ← expectT (ctx.decls decl_id).get_name "expected variable name"
        let rustnameO ← renamerGet varname
        let rustname ← expectT rustnameO ("name not declared: " ++ varname)
        let val := RExpr.pathE [rustname]
        let val :=
          if use_ ≠ ExprUse.LValue ∧ qual_ty.qualifiers.is_volatile then
            volatile_read val qual_ty.ctype
          else val
        pure (WithStmts.new val)
    | .litInt _ val => pure (WithStmts.new (RExpr.litInt val))
    | .implicitCast ty expr kind | .explicitCast ty expr kind => do
        let val ← convert_expr fuel ctx use_ expr
        match kind with
        | .BitCast =>
            pure (val.map (fun x =>
              let source_ty := convert_type expr.get_type
              let target_ty := convert_type ty.ctype
              transmute_expr source_ty target_ty x))
        | .IntegralToPointer | .PointerToIntegral
        | .IntegralCast | .FloatingCast | .FloatingToIntegral | .IntegralToFloating =>
            let ty := convert_type ty.ctype
            pure (val.map (fun x => RExpr.parenE (RExpr.castE x ty)))
        | .LValueToRValue | .NoOp | .ToVoid => pure val
        | .FunctionToPointerDecay => pure val
        | .ArrayToPointerDecay =>
            pure (val.map (fun x => RExpr.methodCall x "as_mut_ptr" []))
        | .NullToPointer => do
            let _ ← if val.stmts.isEmpty then (pure () : TransM Unit)
                    else panicT "assertion failed: val.stmts.is_empty()"
            let null_expr := RExpr.callE (RExpr.pathE ["std", "ptr", "null"]) []
            let null_mut_expr := RExpr.callE (RExpr.pathE ["std", "ptr", "null_mut"]) []
            let res :=
              if is_function_pointer ctx ty.ctype then
                let source_ty := RTy.ptrTy RMut.immut (RTy.pathTy ["libc", "c_void"])
                let target_ty := convert_type ty.ctype
                transmute_expr source_ty target_ty null_expr
              else
                match ctx.resolve_type ty.ctype with
                | .pointer pointee =>
                    if pointee.qualifiers.is_const then null_expr else null_mut_expr
                | _ => null_mut_expr
            pure (WithStmts.new res)
        | .ToUnion => panicT "TODO cast to union not supported"
        | .IntegralToBoolean | .FloatingToBoolean =>
            let val_ty := expr.get_type
            pure (val.map (fun x => match_bool ctx true val_ty x))
        | .BooleanToSignedIntegral =>
            panicT "TODO boolean to signed integral not supported"
        | .FloatingRealToComplex | .FloatingComplexToIntegralComplex
        | .FloatingComplexCast | .FloatingComplexToReal
        | .IntegralComplexToReal | .IntegralRealToComplex
        | .IntegralComplexCast | .IntegralComplexToFloatingComplex
        | .IntegralComplexToBoolean =>
            panicT "TODO casts with complex numbers not supported"
    | .unary type_id op arg => convert_unary_operator fuel ctx use_ op type_id arg
    | .binary type_id op lhs rhs =>
        match op with
        | .Comma => do
            let lhs ← convert_expr fuel ctx ExprUse.Unused lhs
            let rhs ← convert_expr fuel ctx use_ rhs
            pure { stmts := lhs.stmts ++ rhs.stmts, val := rhs.val }
        | .Assign
        | .AssignAdd | .AssignSubtract | .AssignMultiply | .AssignDivide | .AssignModulus
        | .AssignBitXor | .AssignShiftLeft | .AssignShiftRight
        | .AssignBitOr | .AssignBitAnd =>
            let ty := convert_type type_id.ctype
            convert_assignment_operator fuel ctx use_ op ty type_id.ctype lhs rhs
        | _ => do
            let ty := convert_type type_id.ctype
            let lhs_type := lhs.get_qual_type
            let rhs_type := rhs.get_qual_type
            let lhsW ← convert_expr fuel ctx ExprUse.RValue lhs
            let rhsW ← convert_expr fuel ctx ExprUse.RValue rhs
            let stmts := lhsW.stmts ++ rhsW.stmts
            let val ← liftT
              (convert_binary_operator ctx op ty type_id.ctype lhs_type rhs_type lhsW.val rhsW.val)
            pure { stmts := stmts, val := val }
    | .arraySubscript _ l r => do
        let lhs_is_pointer := (ctx.resolve_type l.get_type).is_pointer
        let (lhs, rhs) := if lhs_is_pointer then (l, r) else (r, l)
        let rhsW ← convert_expr fuel ctx ExprUse.RValue rhs
        match decayedArray l with
        | some arr => do
            let lhsW ← convert_expr fuel ctx use_ arr
            pure { stmts := rhsW.stmts ++ lhsW.stmts,
                   val := RExpr.indexE lhsW.val rhsW.val }
        | none => do
            let lhsW ← convert_expr fuel ctx ExprUse.RValue lhs
            pure { stmts := rhsW.stmts ++ lhsW.stmts,
                   val := RExpr.unaryE RUnOp.deref (pointer_offset lhsW.val rhsW.val) }
    | .callK _ func args => do
        let funcW ← convert_expr fuel ctx ExprUse.RValue func
        let (argStmts, args_new) ← convert_call_args fuel ctx args
        let stmts := funcW.stmts ++ argStmts
        let call_expr := RExpr.callE funcW.val args_new
        if use_ = ExprUse.Unused then
          pure { stmts := stmts ++ [RStmt.semiS call_expr], val := translationPanic }
        else
          pure { stmts := stmts, val := call_expr }
    | .initList ty ids =>
        match ctx.resolve_type ty.ctype with
        | .constantArray t n => do
            let (stmts, vals) ← convert_call_args fuel ctx ids
            let vals := vals ++ List.replicate (n - ids.length) (implicit_default_expr ctx t)
            pure { stmts := stmts, val := RExpr.arrayE vals }
        | .structK struct_id => convert_struct_literal fuel ctx struct_id ids ty
        | _ => panicT "Init list not implemented"
    | .implicitValueInit ty => pure (WithStmts.new (implicit_default_expr ctx ty.ctype))

/-- The left-to-right accumulation loop shared by the `Call`-argument
and `InitList`-element conversions (translator.rs 915-920 and
961-967): statements extend in order, values push in order. -/
def convert_call_args : Nat → TypedAstContext → List CExprKind → TransM (List RStmt × List RExpr)
  | 0, _, _ => fun _ => Except.error TransErr.outOfFuel
  | _ + 1, _, [] => pure ([], [])
  | fuel + 1, ctx, arg :: rest => do
      let w ← convert_expr fuel ctx ExprUse.RValue arg
      let (ss, vs) ← convert_call_args fuel ctx rest
      pure (w.stmts ++ ss, w.val :: vs)

/-- `Translation::convert_unary_operator` (translator.rs 1224-1292). -/
def convert_unary_operator :
    Nat → TypedAstContext → ExprUse → CUnOp → CQualType → CExprKind → TransM (WithStmts RExpr)
  | 0, _, _, _, _, _ => fun _ => Except.error TransErr.outOfFuel
  | fuel + 1, ctx, use_, name, cqual_type, arg =>
    let ctype := cqual_type.ctype
    let ty := convert_type ctype
    let resolved_ctype := ctx.resolve_type ctype
    match name with
    | .AddressOf => do
        let argW ← convert_expr fuel ctx ExprUse.LValue arg
        if is_function_pointer ctx ctype then
          pure argW
        else
          pure (argW.map (fun a => RExpr.castE (RExpr.addrOf RMut.mut a) ty))
    | .PreIncrement => convert_pre_increment fuel ctx cqual_type true arg
    | .PreDecrement => convert_pre_increment fuel ctx cqual_type false arg
    | .PostIncrement => convert_post_increment fuel ctx use_ cqual_type true arg
    | .PostDecrement => convert_post_increment fuel ctx use_ cqual_type false arg
    | .Deref => do
        let w ← convert_expr fuel ctx ExprUse.RValue arg
        pure (w.map (fun val =>
          let val := RExpr.unaryE RUnOp.deref val
          if use_ ≠ ExprUse.LValue ∧ cqual_type.qualifiers.is_volatile then
            volatile_read val ctype
          else val))
    | .Plus => convert_expr fuel ctx ExprUse.RValue arg
    | .Negate => do
        let w ← convert_expr fuel ctx ExprUse.RValue arg
        let val :=
          if resolved_ctype.is_unsigned_integral_type then
            RExpr.methodCall w.val "wrapping_neg" []
          else
            RExpr.unaryE RUnOp.neg w.val
        pure { stmts := w.stmts, val := val }
    | .Complement => do
        let w ← convert_expr fuel ctx ExprUse.RValue arg
        pure (w.map (fun a => RExpr.unaryE RUnOp.notO a))
    | .NotOp => do
        let w ← convert_expr fuel ctx ExprUse.RValue arg
        pure { stmts := w.stmts, val := convert_not ctx ctype w.val }

/-- `Translation::convert_pre_increment` (translator.rs 1154-1180). -/
def convert_pre_increment :
    Nat → TypedAstContext → CQualType → Bool → CExprKind → TransM (WithStmts RExpr)
  | 0, _, _, _, _ => fun _ => Except.error TransErr.outOfFuel
  | fuel + 1, ctx, ty, up, arg => do
      let wr ← name_reference_write_read fuel ctx arg
      let write := wr.val.1
      let read := wr.val.2
      let one := RExpr.litInt 1
      let val :=
        if (ctx.resolve_type ty.ctype).is_pointer then
          let n := if up then one else RExpr.unaryE RUnOp.neg one
          RExpr.methodCall read "offset" [n]
        else
          let k := if up then RBinOp.add else RBinOp.sub
          RExpr.binaryE k read one
      let assign_stmt := RExpr.assignE write val
      pure { stmts := wr.stmts ++ [RStmt.exprS assign_stmt], val := read }

/-- `Translation::convert_post_increment` (translator.rs 1182-1222). -/
def convert_post_increment :
    Nat → TypedAstContext → ExprUse → CQualType → Bool → CExprKind → TransM (WithStmts RExpr)
  | 0, _, _, _, _, _ => fun _ => Except.error TransErr.outOfFuel
  | fuel + 1, ctx, use_, ty, up, arg =>
    if use_ = ExprUse.Unused then
      convert_pre_increment fuel ctx ty up arg
    else do
      let ty := arg.get_qual_type
      let wr ← name_reference_write_read fuel ctx arg
      let write := wr.val.1
      let read := wr.val.2
      let val_name ← renamerFresh
      let save_old_val := RStmt.localS (RPat.identPat RMut.immut val_name) none (some read)
      let one := RExpr.litInt 1
      let val :=
        if (ctx.resolve_type ty.ctype).is_pointer then
          let n := if up then one else RExpr.unaryE RUnOp.neg one
          RExpr.methodCall read "offset" [n]
        else
          let k := if up then RBinOp.add else RBinOp.sub
          RExpr.binaryE k read one
      let assign_stmt := RExpr.assignE write val
      pure { stmts := wr.stmts ++ [save_old_val, RStmt.exprS assign_stmt],
             val := RExpr.pathE [val_name] }

/-- `Translation::name_reference` (translator.rs 1082-1152). -/
def name_reference :
    Nat → TypedAstContext → CExprKind → Bool → TransM (WithStmts (RExpr × Option RExpr))
  | 0, _, _, _ => fun _ => Except.error TransErr.outOfFuel
  | fuel + 1, ctx, reference, uses_read => do
      let reference_ty := reference.get_qual_type
      let w ← convert_expr fuel ctx ExprUse.LValue reference
      let referenceE := w.val
      let stmts := w.stmts
      let read := fun (write : RExpr) =>
        if reference_ty.qualifiers.is_volatile then
          volatile_read write reference_ty.ctype
        else
          write
      if uses_read = false ∧ is_lvalue referenceE then
        pure { stmts := stmts, val := (referenceE, none) }
      else if is_simple_lvalue referenceE then
        pure { stmts := stmts, val := (referenceE, some (read referenceE)) }
      else do
        let ptr_name ← renamerFresh
        let compute_ref := RStmt.localS (RPat.identRefPat ptr_name) none (some referenceE)
        let write := RExpr.unaryE RUnOp.deref (RExpr.pathE [ptr_name])
        pure { stmts := stmts ++ [compute_ref], val := (write, some (read write)) }

/-- `Translation::name_reference_write` (translator.rs 1052-1058). -/
def name_reference_write : Nat → TypedAstContext → CExprKind → TransM (WithStmts RExpr)
  | 0, _, _ => fun _ => Except.error TransErr.outOfFuel
  | fuel + 1, ctx, reference => do
      let w ← name_reference fuel ctx reference false
      pure (w.map (fun p => p.1))

/-- `Translation::name_reference_write_read` (translator.rs
1063-1072). -/
def name_reference_write_read : Nat → TypedAstContext → CExprKind → TransM (WithStmts (RExpr × RExpr))
  | 0, _, _ => fun _ => Except.error TransErr.outOfFuel
  | fuel + 1, ctx, reference => do
      let w ← name_reference fuel ctx reference true
      match w.val with
      | (lvalue, some rvalue) => pure { stmts := w.stmts, val := (lvalue, rvalue) }
      | (_, none) => panicT "name_reference should always return an rvalue"

/-- `Translation::convert_assignment_operator` (translator.rs
1295-1358).  The source's guarded match on `op` is restructured into
nested conditionals with identical semantics: the volatile-desugaring
guard arm is only reachable for non-`Assign` operators. -/
def convert_assignment_operator :
    Nat → TypedAstContext → ExprUse → CBinOp → RTy → CTypeKind → CExprKind → CExprKind →
    TransM (WithStmts RExpr)
  | 0, _, _, _, _, _, _, _ => fun _ => Except.error TransErr.outOfFuel
  | fuel + 1, ctx, use_, op, ty, ctype, lhs, rhs => do
      let lhs_type := lhs.get_qual_type
      let rhs_type := rhs.get_qual_type
      let is_volatile := lhs_type.qualifiers.is_volatile
      let is_volatile_compound_assign := op.underlying_assignment.isSome && is_volatile
      let (write, read, lhs_stmts) ←
        if use_ = ExprUse.RValue ∨ is_volatile_compound_assign then do
          let w ← name_reference_write_read fuel ctx lhs
          pure (w.val.1, w.val.2, w.stmts)
        else do
          let w ← name_reference_write fuel ctx lhs
          pure (w.val, translationPanic, w.stmts)
      let rhsW ← convert_expr fuel ctx ExprUse.RValue rhs
      let stmts := lhs_stmts ++ rhsW.stmts
      let rhsE := rhsW.val
      let assign_stmt ←
        if op = CBinOp.Assign then
          if is_volatile = false then
            pure (RExpr.assignE write rhsE)
          else
            pure (volatile_write write lhs_type.ctype rhsE)
        else if is_volatile then do
          let op2 ← expectT op.underlying_assignment "Cannot convert non-assignment operator"
          let val ← liftT
            (convert_binary_operator ctx op2 ty ctype lhs_type rhs_type read rhsE)
          pure (volatile_write write lhs_type.ctype val)
        else
          match op with
          | .AssignAdd => pure (RExpr.assignOpE RBinOp.add write rhsE)
          | .AssignSubtract => pure (RExpr.assignOpE RBinOp.sub write rhsE)
          | .AssignMultiply => pure (RExpr.assignOpE RBinOp.mul write rhsE)
          | .AssignDivide => pure (RExpr.assignOpE RBinOp.div write rhsE)
          | .AssignModulus => pure (RExpr.assignOpE RBinOp.rem write rhsE)
          | .AssignBitXor => pure (RExpr.assignOpE RBinOp.bitXor write rhsE)
          | .AssignShiftLeft => pure (RExpr.assignOpE RBinOp.shl write rhsE)
          | .AssignShiftRight => pure (RExpr.assignOpE RBinOp.shr write rhsE)
          | .AssignBitOr => pure (RExpr.assignOpE RBinOp.bitOr write rhsE)
          | .AssignBitAnd => pure (RExpr.assignOpE RBinOp.bitAnd write rhsE)
          | _ => panicT "Cannot convert non-assignment operator"
      pure { stmts := stmts ++ [RStmt.exprS assign_stmt], val := read }

/-- `Translation::convert_struct_literal` (translator.rs 993-1035).
The padding loop runs over `ids.len()..fields.len()`, exactly as in
the source (where `fields` is the vector built by the first loop). -/
def convert_struct_literal :
    Nat → TypedAstContext → Nat → List CExprKind → CQualType → TransM (WithStmts RExpr)
  | 0, _, _, _, _ => fun _ => Except.error TransErr.outOfFuel
  | fuel + 1, ctx, struct_id, ids, _ty => do
      let struct_decl := ctx.decls struct_id
      let (struct_name, field_decls) ←
        match struct_decl with
        | .structDecl name fields => do
            let fieldnames ← fields.mapM (fun x =>
              match ctx.decls x with
              | .fieldDecl name typ => (pure (name, typ) : TransM (String × CQualType))
              | _ => panicT "Struct field decl type mismatch")
            let nm ← expectT name "unwrap on None"
            pure (nm, fieldnames)
        | _ => panicT "Struct literal declaration mismatch"
      let (stmts, fields) ← convert_struct_fields fuel ctx ids field_decls
      let pads ← (List.range' ids.length (fields.length - ids.length)).mapM (fun i => do
        let fd ← expectT (field_decls.get? i) "index out of bounds"
        pure (fd.1, implicit_default_expr ctx fd.2.ctype))
      let fields := fields ++ pads
      pure { stmts := stmts, val := RExpr.structE struct_name fields }

/-- The first loop of `convert_struct_literal` (translator.rs
1016-1023): pair each provided initializer with the field declaration
of the same index (indexing `field_decls` panics first when the
initializer list is longer than the declared field list). -/
def convert_struct_fields :
    Nat → TypedAstContext → List CExprKind → List (String × CQualType) →
    TransM (List RStmt × List (String × RExpr))
  | 0, _, _, _ => fun _ => Except.error TransErr.outOfFuel
  | _ + 1, _, [], _ => pure ([], [])
  | _ + 1, _, _ :: _, [] => panicT "index out of bounds"
  | fuel + 1, ctx, v :: rest, fd :: fdrest => do
      let x ← convert_expr fuel ctx ExprUse.RValue v
      let (ss, fs) ← convert_struct_fields fuel ctx rest fdrest
      pure (x.stmts ++ ss, (fd.1, x.val) :: fs)
end

/-- `Translation::convert_variable` (translator.rs 567-577). -/
def convert_variable (fuel : Nat) (ctx : TypedAstContext)
    (initializer : Option CExprKind) (typ : CQualType) :
    TransM (RTy × RMut × Option (WithStmts RExpr)) := do
  let init ←
    match initializer with
    | none => pure none
    | some x => do
        let w ← convert_expr fuel ctx ExprUse.RValue x
        pure (some w)
  let ty := convert_type typ.ctype
  let mutbl := if typ.qualifiers.is_const then RMut.immut else RMut.mut
  pure (ty, mutbl, init)

/-- `Translation::convert_decl` (translator.rs 206-304), for the
embedded declaration kinds: named/anonymous structs and the four
`Variable` arms (in source order); a top-level field declaration
falls into the source's final `unimplemented!()` arm. -/
def convert_decl (fuel : Nat) (ctx : TypedAstContext) (_toplevel : Bool) (decl_id : Nat) :
    TransM RItem :=
  match ctx.decls decl_id with
  | .structDecl name fields =>
      match name with
      | some name => do
          let fields ← fields.mapM (fun x =>
            match ctx.decls x with
            | .fieldDecl name typ =>
                (pure (name, convert_type typ.ctype) : TransM (String × RTy))
            | _ => panicT "Found non-field in record field list")
          pure (RItem.structItem name fields)
      | none => panicT "Anonymous struct declarations not implemented"
  | .variable is_static true ident none typ => do
      let _ ← if is_static then (pure () : TransM Unit)
              else panicT "An extern variable must be static"
      let (ty, mutbl, _) ← convert_variable fuel ctx none typ
      pure (RItem.foreignStatic mutbl ident ty)
  | .variable is_static true ident initializer typ => do
      let _ ← if is_static then (pure () : TransM Unit)
              else panicT "An extern variable must be static"
      let (ty, mutbl, init) ← convert_variable fuel ctx initializer typ
      let init ← expectT init "Initializer expected"
      pure (RItem.staticItem true mutbl ident ty init.to_expr)
  | .variable true _ ident initializer typ => do
      let (ty, mutbl, init) ← convert_variable fuel ctx initializer typ
      let init := (init.map (fun w => w.to_expr)).getD (implicit_default_expr ctx typ.ctype)
      pure (RItem.staticItem false mutbl ident ty init)
  | .variable _ _ _ _ _ => panicT "This should be handled in convert_decl_stmt"
  | .fieldDecl _ _ => panicT "not implemented"

/-- The driving loop of `translate` (translator.rs 113-152): populate
the renamer with every named top-level declaration, then convert the
top-level declarations in order.  The source additionally
pretty-prints the items behind a library-import preamble; that
serialization is not modelled.  A panic anywhere aborts the whole
run: no item list is produced and no later declaration is visited. -/
def translate_unit (fuel : Nat) (ctx : TypedAstContext) : Except TransErr (List RItem) :=
  ((do
    let _ ← ctx.c_decls_top.mapM (fun top_id =>
      match (ctx.decls top_id).get_name with
      | some y => do
          let _ ← renamerInsert y y
          (pure () : TransM Unit)
      | none => pure ())
    ctx.c_decls_top.mapM (fun top_id => convert_decl fuel ctx true top_id)
   : TransM (List RItem)).run Renamer.new).map Prod.fst

mutual
/-- Sum a per-node score over an expression tree (used to count
volatile accesses and fused assignment operators in emitted code). -/
def scoreE (f : RExpr → Nat) : RExpr → Nat
  | .pathE segs => f (.pathE segs)
  | .pathP segs tys => f (.pathP segs tys)
  | .litInt n => f (.litInt n)
  | .litFloatStr s => f (.litFloatStr s)
  | .litStr s => f (.litStr s)
  | .litByteStr bs => f (.litByteStr bs)
  | .callE g args => f (.callE g args) + scoreE f g + scoreL f args
  | .methodCall r n args => f (.methodCall r n args) + scoreE f r + scoreL f args
  | .binaryE op l r => f (.binaryE op l r) + scoreE f l + scoreE f r
  | .assignE l r => f (.assignE l r) + scoreE f l + scoreE f r
  | .assignOpE op l r => f (.assignOpE op l r) + scoreE f l + scoreE f r
  | .unaryE op e => f (.unaryE op e) + scoreE f e
  | .castE e ty => f (.castE e ty) + scoreE f e
  | .parenE e => f (.parenE e) + scoreE f e
  | .indexE l r => f (.indexE l r) + scoreE f l + scoreE f r
  | .fieldE e n => f (.fieldE e n) + scoreE f e
  | .addrOf m e => f (.addrOf m e) + scoreE f e
  | .arrayE es => f (.arrayE es) + scoreL f es
  | .structE n fs => f (.structE n fs) + scoreF f fs
  | .blockE ss => f (.blockE ss) + scoreSL f ss
  | .panicMac => f .panicMac

/-- Score over a list of expressions. -/
def scoreL (f : RExpr → Nat) : List RExpr → Nat
  | [] => 0
  | e :: es => scoreE f e + scoreL f es

/-- Score over record fields. -/
def scoreF (f : RExpr → Nat) : List (String × RExpr) → Nat
  | [] => 0
  | (_, e) :: es => scoreE f e + scoreF f es

/-- Score over a statement. -/
def scoreStmt (f : RExpr → Nat) : RStmt → Nat
  | .exprS e => scoreE f e
  | .semiS e => scoreE f e
  | .localS _ _ none => 0
  | .localS _ _ (some e) => scoreE f e

/-- Score over a statement list. -/
def scoreSL (f : RExpr → Nat) : List RStmt → Nat
  | [] => 0
  | s :: ss => scoreStmt f s + scoreSL f ss
end

/-- Shallow test: is this node a `std::ptr::read_volatile` call? -/
def isReadVolatileCall : RExpr → Nat
  | .callE (.pathE ["std", "ptr", "read_volatile"]) _ => 1
  | _ => 0

/-- Shallow test: is this node a `std::ptr::write_volatile` call? -/
def isWriteVolatileCall : RExpr → Nat
  | .callE (.pathE ["std", "ptr", "write_volatile"]) _ => 1
  | _ => 0

/-- Shallow test: is this node a native fused compound-assignment
operator? -/
def isFusedAssignOp : RExpr → Nat
  | .assignOpE _ _ _ => 1
  | _ => 0

/-- Count `read_volatile` operations in a statement list. -/
def countReadVolatile (ss : List RStmt) : Nat := scoreSL isReadVolatileCall ss

/-- Count `write_volatile` operations in a statement list. -/
def countWriteVolatile (ss : List RStmt) : Nat := scoreSL isWriteVolatileCall ss

/-- Count native fused compound assignments in a statement list. -/
def countFusedAssign (ss : List RStmt) : Nat := scoreSL isFusedAssignOp ss

/-- Modelled from the spec: target-language evaluation of the
arithmetic expressions the translator emits, over unsigned `w`-bit
values (an environment maps variable paths to values).  A plain
operator traps on overflow; a `wrapping_` method reduces modulo
`2 ^ w`; division and remainder trap on a zero divisor in either
form. -/
def evalArith (w : Nat) (env : String → Nat) : RExpr → Except TransErr Nat
  | .pathE [x] => Except.ok (env x)
  | .litInt n => Except.ok n
  | .parenE e => evalArith w env e
  | .methodCall recv name [rhs] => do
      let a ← evalArith w env recv
      let b ← evalArith w env rhs
      match name with
      | "wrapping_add" => Except.ok ((a + b) % 2 ^ w)
      | "wrapping_sub" => Except.ok ((a + (2 ^ w - b % 2 ^ w)) % 2 ^ w)
      | "wrapping_mul" => Except.ok (a * b % 2 ^ w)
      | "wrapping_div" =>
          if b = 0 then Except.error (.panicked "attempt to divide by zero")
          else Except.ok (a / b)
      | "wrapping_rem" =>
          if b = 0 then Except.error (.panicked "attempt to calculate the remainder with a divisor of zero")
          else Except.ok (a % b)
      | _ => Except.error (.panicked "evalArith: unsupported method")
  | .binaryE op l r => do
      let a ← evalArith w env l
      let b ← evalArith w env r
      match op with
      | .add =>
          if a + b < 2 ^ w then Except.ok (a + b)
          else Except.error (.panicked "attempt to add with overflow")
      | .sub =>
          if b ≤ a then Except.ok (a - b)
          else Except.error (.panicked "attempt to subtract with overflow")
      | .mul =>
          if a * b < 2 ^ w then Except.ok (a * b)
          else Except.error (.panicked "attempt to multiply with overflow")
      | .div =>
          if b = 0 then Except.error (.panicked "attempt to divide by zero")
          else Except.ok (a / b)
      | .rem =>
          if b = 0 then Except.error (.panicked "attempt to calculate the remainder with a divisor of zero")
          else Except.ok (a % b)
      | _ => Except.error (.panicked "evalArith: unsupported operator")
  | _ => Except.error (.panicked "evalArith: unsupported expression")

/-- Modelled from the spec: the runtime meaning of the code emitted
for a pointer-pointer subtraction.  `offset_to` reports the signed
element distance between the two addresses when one is defined;
`expect` unwraps it or panics with the carried message.  The
parameter `dist` is the distance the runtime would report. -/
def run_ptr_diff (dist : Option Int) : RExpr → Except TransErr Int
  | .castE (.methodCall (.methodCall _ "offset_to" [_]) "expect" [.litStr msg]) _ =>
      (match dist with
       | some d => Except.ok d
       | none => Except.error (.panicked msg))
  | _ => Except.error (.panicked "unsupported expression")

/-- `Option`-unwrap in the plain `Except` monad (`expect` and the
panicking `HashMap`/`Vec` index operations of ownership.rs). -/
def exceptE {α : Type} (o : Option α) (msg : String) : Except TransErr α :=
  match o with
  | some a => Except.ok a
  | none => Except.error (TransErr.panicked msg)

/-- A function-reference record (ownership.rs `func_refs`): one call
or method-call expression inside a function body, identified by its
source span, together with the callee's declaration id. -/
structure FuncRef where
  span : Option Nat
  def_id : Nat
deriving DecidableEq

/-- One mono record: its name suffix and, for every function
reference of the enclosing function, the index of the callee's
required mono (`callee_mono_idxs`). -/
structure MonoRecord where
  suffix : String
  callee_mono_idxs : List Nat
deriving DecidableEq

/-- The per-function analysis record consumed by the splitter. -/
structure FnRecord where
  func_refs : List FuncRef
  monos : List MonoRecord
deriving DecidableEq

/-- The analysis result: per-function records keyed by def id
(`ana.fns`). -/
structure AnalysisResult where
  fns : List (Nat × FnRecord)
deriving DecidableEq

/-- `ana.fns.get(&def_id)` as an association-list lookup. -/
def AnalysisResult.find (ana : AnalysisResult) (id : Nat) : Option FnRecord :=
  (ana.fns.find? (fun p => p.1 == id)).map (fun p => p.2)

/-- A call-site expression inside a function body: a path or
method-call expression identified by its span. `name` is the last
path segment; `rewrites` is a ghost counter incremented by
`apply_suffix` — the caller-visible trace used to state the
exactly-once rewriting property. -/
structure CallExpr where
  span : Nat
  name : String
  rewrites : Nat
deriving DecidableEq

/-- A function-like item of the crate (`fn_edit::FnLike`): def id,
name, and the call-site expressions of its body. -/
structure FnLike where
  def_id : Nat
  ident : String
  body : List CallExpr
deriving DecidableEq

/-- `mono_name` (ownership.rs 398-404). -/
def mono_name (base suffix : String) : String :=
  if suffix.length = 0 then base else base ++ "_" ++ suffix

/-- `apply_suffix` (ownership.rs 376-396): append the mono suffix to
the last path segment of the call expression (and tick the ghost
rewrite counter). -/
def apply_suffix (suffix : String) (e : CallExpr) : CallExpr :=
  { e with name := mono_name e.name suffix, rewrites := e.rewrites + 1 }

/-- The `span_fref_idx` map (ownership.rs 274-281): from call-site
span to function-reference index within the caller; later insertions
shadow earlier ones, as for a `HashMap`. -/
def build_span_fref_idx (ana : AnalysisResult) : List (Nat × Nat) :=
  ana.fns.foldl (fun m p =>
    p.2.func_refs.enum.foldl (fun m q =>
      match q.2.span with
      | some s => (s, q.1) :: m
      | none => m) m) []

/-- Lookup in the span map. -/
def lookupSpan (m : List (Nat × Nat)) (s : Nat) : Option Nat :=
  (m.find? (fun p => p.1 == s)).map (fun p => p.2)

/-- The per-expression rewrite of pass 1 (ownership.rs 318-335),
performed inside each clone of a marked function: record the span as
handled, leave calls to non-split functions unchanged, and rewrite a
call to a split function to that callee's required mono, looked up
through the clone's own mono record. -/
def rewrite_expr_split (ana : AnalysisResult) (sfi : List (Nat × Nat)) (marked : Nat → Bool)
    (fr : FnRecord) (mr : MonoRecord) (handled : List Nat) (e : CallExpr) :
    Except TransErr (CallExpr × List Nat) :=
  match lookupSpan sfi e.span with
  | none => Except.ok (e, handled)
  | some fref_idx => do
      let handled := e.span :: handled
      let fref ← exceptE (fr.func_refs.get? fref_idx) "index out of bounds"
      let callee := fref.def_id
      if marked callee = false then
        Except.ok (e, handled)
      else do
        let callee_mono_idx ← exceptE (mr.callee_mono_idxs.get? fref_idx) "index out of bounds"
        let callee_fr ← exceptE (ana.find callee) "no entry found for key"
        let callee_mono ← exceptE (callee_fr.monos.get? callee_mono_idx) "index out of bounds"
        Except.ok (apply_suffix callee_mono.suffix e, handled)

/-- Pass 1 over one clone's body, threading the handled-span set in
visit order. -/
def rewrite_body_split (ana : AnalysisResult) (sfi : List (Nat × Nat)) (marked : Nat → Bool)
    (fr : FnRecord) (mr : MonoRecord) :
    List CallExpr → List Nat → Except TransErr (List CallExpr × List Nat)
  | [], handled => Except.ok ([], handled)
  | e :: rest, handled => do
      let (e2, handled) ← rewrite_expr_split ana sfi marked fr mr handled e
      let (rest2, handled) ← rewrite_body_split ana sfi marked fr mr rest handled
      Except.ok (e2 :: rest2, handled)

/-- The clone loop of pass 1 (ownership.rs 303-338): one clone per
mono record, renamed by the mono suffix, with its body rewritten
through that mono record. -/
def split_clones (ana : AnalysisResult) (sfi : List (Nat × Nat)) (marked : Nat → Bool)
    (fl : FnLike) (fr : FnRecord) :
    List (Nat × MonoRecord) → List Nat → Except TransErr (List FnLike × List Nat)
  | [], handled => Except.ok ([], handled)
  | (_mono_idx, mr) :: rest, handled => do
      let ident2 := if mr.suffix.length > 0 then fl.ident ++ "_" ++ mr.suffix else fl.ident
      let (body2, handled) ← rewrite_body_split ana sfi marked fr mr fl.body handled
      let (clones, handled) ← split_clones ana sfi marked fl fr rest handled
      Except.ok ({ fl with ident := ident2, body := body2 } :: clones, handled)

/-- Pass 1 over the whole crate (`fn_edit::fold_fns_multi`, ownership.rs
290-339): unmarked functions and marked functions without an analysis
record pass through unchanged. -/
def split_pass (ana : AnalysisResult) (sfi : List (Nat × Nat)) (marked : Nat → Bool) :
    List FnLike → List Nat → Except TransErr (List FnLike × List Nat)
  | [], handled => Except.ok ([], handled)
  | fl :: rest, handled => do
      let (fls, handled) ←
        if marked fl.def_id = false then
          Except.ok ([fl], handled)
        else
          match ana.find fl.def_id with
          | none => Except.ok ([fl], handled)
          | some fr => split_clones ana sfi marked fl fr fr.monos.enum handled
      let (rest2, handled) ← split_pass ana sfi marked rest handled
      Except.ok (fls ++ rest2, handled)

/-- The per-expression rewrite of pass 2 (ownership.rs 341-370):
skip spans already handled while splitting; for a call from a
still-unsplit function to a split function, bind through the
caller's first mono record (`src_fr.monos[0]`); leave calls to
non-split functions unchanged. -/
def rewrite_expr_fallback (ana : AnalysisResult) (sfi : List (Nat × Nat)) (marked : Nat → Bool)
    (handled : List Nat) (src_def_id : Nat) (e : CallExpr) : Except TransErr CallExpr :=
  match lookupSpan sfi e.span with
  | none => Except.ok e
  | some fref_idx =>
      if handled.contains e.span then
        Except.ok e
      else do
        let src_fr ← exceptE (ana.find src_def_id) "no entry found for key"
        let fref ← exceptE (src_fr.func_refs.get? fref_idx) "index out of bounds"
        let dest := fref.def_id
        if marked dest = false then
          Except.ok e
        else do
          let src_mr ← exceptE (src_fr.monos.get? 0) "index out of bounds"
          let dest_mono_idx ← exceptE (src_mr.callee_mono_idxs.get? fref_idx) "index out of bounds"
          let dest_fr ← exceptE (ana.find dest) "no entry found for key"
          let dest_mono ← exceptE (dest_fr.monos.get? dest_mono_idx) "index out of bounds"
          Except.ok (apply_suffix dest_mono.suffix e)

/-- Pass 2 over the whole (already split) crate. -/
def fallback_pass (ana : AnalysisResult) (sfi : List (Nat × Nat)) (marked : Nat → Bool)
    (handled : List Nat) : List FnLike → Except TransErr (List FnLike)
  | [] => Except.ok []
  | fl :: rest => do
      let body2 ← fl.body.mapM (rewrite_expr_fallback ana sfi marked handled fl.def_id)
      let rest2 ← fallback_pass ana sfi marked handled rest
      Except.ok ({ fl with body := body2 } :: rest2)

/-- `do_split_variants` (ownership.rs 269-374): build the span map,
duplicate marked functions into one clone per mono while rewriting
and recording handled call sites, then rewrite the remaining call
sites of unsplit callers through their first mono record. -/
def do_split_variants (ana : AnalysisResult) (marked : Nat → Bool) (krate : List FnLike) :
    Except TransErr (List FnLike) := do
  let sfi := build_span_fref_idx ana
  let (krate, handled) ← split_pass ana sfi marked krate []
  fallback_pass ana sfi marked handled krate

/-- `RefKind` (mir_loc.rs 60-64). -/
inductive RefKind where
  | Ref (n : Nat)
  | Raw (n : Nat)
deriving DecidableEq

/-- `EventMetadata` (mir_loc.rs 66-73). -/
inductive EventMetadata where
  | CopyPtr (dest : Nat) (src : RefKind)
  | CopyRef (dest : Nat) (src : RefKind)
  | Field (n : Nat)
  | Hook (n : Nat)
  | Generic
deriving DecidableEq

/-- `MirLoc` (mir_loc.rs 94-100); `body_def` is the pair of hashes of
`DefPathHash`. -/
structure MirLoc where
  body_def : Nat × Nat
  basic_block_idx : Nat
  statement_idx : Nat
  metadata : EventMetadata
deriving DecidableEq

/-- `Metadata` (mir_loc.rs 112-116). -/
structure Metadata where
  locs : List MirLoc
  functions : List ((Nat × Nat) × String)
deriving DecidableEq

/-- The process-wide state of mir_loc.rs: the `MIR_LOC_FILE_PATH`
cell (initially `none`; `set_file` is the only writer) together with
the file system visible to the lazy `MIR_LOCS` initializer.
`fs p = none` models an unopenable file, `fs p = some none` a file
that fails to deserialize, and `fs p = some (some m)` a well-formed
metadata file. -/
structure MirLocState where
  mir_loc_file_path : Option String
  fs : String → Option (Option Metadata)

/-- `set_file` (mir_loc.rs 12-14). -/
def set_file (s : MirLocState) (file_path : String) : MirLocState :=
  { s with mir_loc_file_path := some file_path }

/-- The lazy `MIR_LOCS` static (mir_loc.rs 16-27): read the path
(panicking when it was never set), open and deserialize the file
(panicking on failure). -/
def mir_locs (s : MirLocState) : Except TransErr Metadata :=
  match s.mir_loc_file_path with
  | none =>
      Except.error (.panicked "MIR_LOC_FILE_PATH not initialized by the instrumented code")
  | some p =>
      match s.fs p with
      | none => Except.error (.panicked "Could not open span file")
      | some none => Except.error (.panicked "Error deserializing span file")
      | some (some m) => Except.ok m

/-- `get` (mir_loc.rs 29-35): `None` when the path was never set;
otherwise index the loaded table directly — `MIR_LOCS.locs[index]` —
with no bounds check, so an out-of-range index panics rather than
mapping to `None`. -/
def mir_loc_get (s : MirLocState) (index : Nat) : Except TransErr (Option MirLoc) :=
  if (s.mir_loc_file_path).isSome then do
    let m ← mir_locs s
    match m.locs.get? index with
    | some l => Except.ok (some l)
    | none => Except.error (.panicked "index out of bounds")
  else
    Except.ok none

/-- Unqualified signed-int qualified type used by concrete examples. -/
def intQ : CQualType := CQualType.mkQ ⟨false, false⟩ (CTypeKind.intK 32)

/-- Unqualified pointer-to-int qualified type used by concrete
examples. -/
def ptrIntQ : CQualType := CQualType.mkQ ⟨false, false⟩ (CTypeKind.pointer intQ)

/-- A typed AST context with no interesting declarations, for claims
about the pure helpers. -/
def exCtx : TypedAstContext :=
  { decls := fun _ => CDeclKind.structDecl none [], c_decls_top := [] }

/-- C1: composing two `WithStmts` values with `and_then` yields
exactly the left value's statements followed by the continuation's
statements (which carry the right value's effects and the combiner's
own new effects, in that order) and the continuation's value; `map`
keeps the statement list untouched; the composition law holds under
arbitrary re-nesting, and sequencing any list of `WithStmts` values
concatenates all statement lists in order — no statement is dropped
or reordered at any nesting depth. -/
theorem claim_c1 :
    (∀ (T U : Type) (x : WithStmts T) (f : T → WithStmts U),
      (x.and_then f).stmts = x.stmts ++ (f x.val).stmts
      ∧ (x.and_then f).val = (f x.val).val)
    ∧ (∀ (T U : Type) (x : WithStmts T) (g : T → U),
      (x.map g).stmts = x.stmts ∧ (x.map g).val = g x.val)
    ∧ (∀ (T U V : Type) (x : WithStmts T) (f : T → WithStmts U) (g : U → WithStmts V),
      (x.and_then f).and_then g = x.and_then (fun v => (f v).and_then g))
    ∧ (∀ (T : Type) (xs : List (WithStmts T)),
      (WithStmts.seqAll xs).stmts = (xs.map WithStmts.stmts).flatten
      ∧ (WithStmts.seqAll xs).val = xs.map WithStmts.val) := by
  refine ⟨fun T U x f => ⟨rfl, rfl⟩, fun T U x g => ⟨rfl, rfl⟩, ?_, ?_⟩
  · intro T U V x f g
    simp [WithStmts.and_then, List.append_assoc]
  · intro T xs
    induction xs with
    | nil => exact ⟨rfl, rfl⟩
    | cons x rest ih =>
        refine ⟨?_, ?_⟩
        · simp [WithStmts.seqAll, WithStmts.and_then, WithStmts.map, ih.1]
        · simp [WithStmts.seqAll, WithStmts.and_then, WithStmts.map, ih.2]

/-- C10: `get(index)` returns `None` exactly when `set_file` was
never called (the path cell is still unset); once a path is set, the
lazily loaded table is indexed directly with no bounds check, so
`Some` is returned exactly for indices inside the table and an
out-of-range index panics instead of mapping to `None`. -/
theorem claim_c10 :
    ∀ (s : MirLocState) (index : Nat),
      (mir_loc_get s index = Except.ok none ↔ s.mir_loc_file_path = none)
      ∧ (∀ p, set_file s p = { s with mir_loc_file_path := some p })
      ∧ (∀ p m l, s.mir_loc_file_path = some p → s.fs p = some (some m) →
          m.locs.get? index = some l →
          mir_loc_get s index = Except.ok (some l))
      ∧ (∀ p m, s.mir_loc_file_path = some p → s.fs p = some (some m) →
          m.locs.length ≤ index →
          mir_loc_get s index = Except.error (TransErr.panicked "index out of bounds")) := by
  intro s index
  refine ⟨?_, fun p => rfl, ?_, ?_⟩
  · constructor
    · intro h
      by_contra hne
      rcases Option.ne_none_iff_exists.mp hne with ⟨p, hp⟩
      rw [mir_loc_get, ← hp] at h
      simp only [Option.isSome_some, if_true] at h
      rw [mir_locs, ← hp] at h
      rcases hfs : s.fs p with _ | (_ | m)
      · simp only [hfs] at h
        simp [bind, Except.bind] at h
      · simp only [hfs] at h
        simp [bind, Except.bind] at h
      · simp only [hfs] at h
        simp only [bind, Except.bind] at h
        rcases hg : m.locs.get? index with _ | l
        · rw [hg] at h
          simp at h
        · rw [hg] at h
          simp at h
    · intro h
      rw [mir_loc_get, h]
      rfl
  · intro p m l hp hfs hg
    rw [mir_loc_get, hp]
    simp only [Option.isSome_some, if_true]
    rw [mir_locs, hp]
    simp only [hfs]
    simp only [bind, Except.bind]
    rw [hg]
  · intro p m hp hfs hlen
    rw [mir_loc_get, hp]
    simp only [Option.isSome_some, if_true]
    rw [mir_locs, hp]
    simp only [hfs]
    simp only [bind, Except.bind]
    rw [List.get?_eq_none.mpr hlen]

/-- Witness for C10 at a concrete state: a set path with a
three-entry table; index 1 is inside, index 5 is out of range, and
the unset state yields `None`. -/
theorem claim_c10_witness :
    (mir_loc_get { mir_loc_file_path := none, fs := fun _ => none } 0 = Except.ok none)
    ∧ (mir_loc_get
        { mir_loc_file_path := some "f",
          fs := fun _ => some (some { locs := [⟨(0, 0), 0, 0, EventMetadata.Generic⟩,
                                              ⟨(1, 1), 1, 1, EventMetadata.Generic⟩],
                                      functions := [] }) } 1
        = Except.ok (some ⟨(1, 1), 1, 1, EventMetadata.Generic⟩))
    ∧ (mir_loc_get
        { mir_loc_file_path := some "f",
          fs := fun _ => some (some { locs := [⟨(0, 0), 0, 0, EventMetadata.Generic⟩,
                                              ⟨(1, 1), 1, 1, EventMetadata.Generic⟩],
                                      functions := [] }) } 5
        = Except.error (TransErr.panicked "index out of bounds")) := by
  refine ⟨?_, ?_, ?_⟩
  · exact ((claim_c10 { mir_loc_file_path := none, fs := fun _ => none } 0).1).mpr rfl
  · exact (claim_c10 _ 1).2.2.1 "f" _ _ rfl rfl rfl
  · exact (claim_c10 _ 5).2.2.2 "f" _ rfl rfl (by simp)

/-- C5 (amended): for every subtraction whose right operand resolves
to a pointer type, the lowering always succeeds in emitting the
fallible-distance code `rhs.offset_to(lhs).expect("bad offset_to")
as ty`; at runtime the emitted code returns the exact signed element
distance when one is defined and fails fast with the diagnostic
`bad offset_to` when the distance computation reports no valid
result.  The translation itself is never rejected. -/
theorem claim_c5 :
    ∀ (ctx : TypedAstContext) (ty : RTy) (lt rt : CQualType) (lhs rhs : RExpr),
      (ctx.resolve_type rt.ctype).is_pointer = true →
      convert_subtraction ctx ty lt rt lhs rhs
        = RExpr.castE
            (RExpr.methodCall (RExpr.methodCall rhs "offset_to" [lhs]) "expect"
              [RExpr.litStr "bad offset_to"]) ty
      ∧ (∀ d : Int, run_ptr_diff (some d) (convert_subtraction ctx ty lt rt lhs rhs)
            = Except.ok d)
      ∧ run_ptr_diff none (convert_subtraction ctx ty lt rt lhs rhs)
          = Except.error (TransErr.panicked "bad offset_to") := by
  intro ctx ty lt rt lhs rhs hptr
  have heq : convert_subtraction ctx ty lt rt lhs rhs
      = RExpr.castE
          (RExpr.methodCall (RExpr.methodCall rhs "offset_to" [lhs]) "expect"
            [RExpr.litStr "bad offset_to"]) ty := by
    rw [convert_subtraction]
    simp only [hptr, if_true]
  refine ⟨heq, fun d => ?_, ?_⟩
  · rw [heq]; rfl
  · rw [heq]; rfl

/-- Witness for C5 at concrete pointer-typed operands. -/
theorem claim_c5_witness :
    (exCtx.resolve_type ptrIntQ.ctype).is_pointer = true
    ∧ convert_subtraction exCtx (RTy.pathTy ["libc", "int32"]) ptrIntQ ptrIntQ
        (RExpr.pathE ["p"]) (RExpr.pathE ["q"])
        = RExpr.castE
            (RExpr.methodCall (RExpr.methodCall (RExpr.pathE ["q"]) "offset_to"
              [RExpr.pathE ["p"]]) "expect" [RExpr.litStr "bad offset_to"])
            (RTy.pathTy ["libc", "int32"]) :=
  ⟨rfl, (claim_c5 exCtx (RTy.pathTy ["libc", "int32"]) ptrIntQ ptrIntQ
    (RExpr.pathE ["p"]) (RExpr.pathE ["q"]) rfl).1⟩

/-- C5 counterexample to the claim as stated: with two pointer-typed
operands whose runtime distance computation reports no valid result,
the translation does not fail — it produces a complete output
expression — and it is the runtime of that emitted expression that
panics with `bad offset_to`. -/
theorem claim_c5_cex :
    convert_subtraction exCtx (RTy.pathTy ["libc", "int32"]) ptrIntQ ptrIntQ
        (RExpr.pathE ["p"]) (RExpr.pathE ["q"])
      = RExpr.castE
          (RExpr.methodCall (RExpr.methodCall (RExpr.pathE ["q"]) "offset_to"
            [RExpr.pathE ["p"]]) "expect" [RExpr.litStr "bad offset_to"])
          (RTy.pathTy ["libc", "int32"])
    ∧ run_ptr_diff none
        (convert_subtraction exCtx (RTy.pathTy ["libc", "int32"]) ptrIntQ ptrIntQ
          (RExpr.pathE ["p"]) (RExpr.pathE ["q"]))
        = Except.error (TransErr.panicked "bad offset_to") :=
  ⟨rfl, rfl⟩

/-- C8: evaluating `convert_addition` at an integer left operand and
a pointer right operand: the emitted code applies `.offset` to the
integer operand `n` and casts the pointer `p` to `isize` as the
offset, instead of advancing the pointer by the integer.  The second
conjunct shows the pointer-on-the-left case, which does advance the
pointer, exposing the unswapped-arguments slip in the
`rhs_type.is_pointer()` branch. -/
theorem claim_c8_bug :
    convert_addition exCtx intQ ptrIntQ (RExpr.pathE ["n"]) (RExpr.pathE ["p"])
      = RExpr.methodCall (RExpr.pathE ["n"]) "offset"
          [RExpr.castE (RExpr.pathE ["p"]) (RTy.pathTy ["isize"])]
    ∧ convert_addition exCtx ptrIntQ intQ (RExpr.pathE ["p"]) (RExpr.pathE ["n"])
      = RExpr.methodCall (RExpr.pathE ["p"]) "offset"
          [RExpr.castE (RExpr.pathE ["n"]) (RTy.pathTy ["isize"])] :=
  ⟨rfl, rfl⟩

/-- Wrap-around subtraction on values below the modulus agrees with
integer subtraction reduced modulo the modulus. -/
theorem wrap_sub_toNat (P a b : Nat) (ha : a < P) (hb : b < P) :
    (a + (P - b % P)) % P = (((a : Int) - b) % (P : Int)).toNat := by
  have hm : b % P = b := Nat.mod_eq_of_lt hb
  rw [hm]
  rcases le_or_lt b a with hba | hab
  · have h1 : a + (P - b) = (a - b) + P := by omega
    rw [h1, Nat.add_mod_right, Nat.mod_eq_of_lt (by omega)]
    have h2 : ((a : Int) - b) % (P : Int) = (a : Int) - b :=
      Int.emod_eq_of_lt (by omega) (by omega)
    rw [h2]; omega
  · have h3 : ((a : Int) - b + P) % (P : Int) = ((a : Int) - b) % P := by
      have h0 := Int.add_mul_emod_self_left (a := (a : Int) - b) (b := (P : Int)) (c := 1)
      simp only [mul_one] at h0
      exact h0
    have h4 : ((a : Int) - b + P) % (P : Int) = (a : Int) - b + P :=
      Int.emod_eq_of_lt (by omega) (by omega)
    rw [← h3, h4, Nat.mod_eq_of_lt (by omega)]
    omega

/-- C6: for operands of unsigned integral kind the five arithmetic
operators lower to the explicitly wrapping variants, while signed
integral operands lower to the ordinary operators; and running the
emitted unsigned code on any representable operands `a, b < 2 ^ w`
never faults or panics on overflow and returns `(a op b) mod 2 ^ w`
(division and remainder return the exact quotient and remainder for
any nonzero divisor). -/
theorem claim_c6 :
    ∀ (ctx : TypedAstContext) (ty : RTy) (w wl wr : Nat) (lq rq : CQualifiers)
      (lhs rhs : RExpr),
      -- unsigned operand types: wrapping variants
      (convert_binary_operator ctx CBinOp.Add ty (CTypeKind.uintK w)
          (CQualType.mkQ lq (CTypeKind.uintK wl)) (CQualType.mkQ rq (CTypeKind.uintK wr)) lhs rhs
        = Except.ok (RExpr.methodCall lhs "wrapping_add" [rhs]))
      ∧ (convert_binary_operator ctx CBinOp.Subtract ty (CTypeKind.uintK w)
          (CQualType.mkQ lq (CTypeKind.uintK wl)) (CQualType.mkQ rq (CTypeKind.uintK wr)) lhs rhs
        = Except.ok (RExpr.methodCall lhs "wrapping_sub" [rhs]))
      ∧ (convert_binary_operator ctx CBinOp.Multiply ty (CTypeKind.uintK w)
          (CQualType.mkQ lq (CTypeKind.uintK wl)) (CQualType.mkQ rq (CTypeKind.uintK wr)) lhs rhs
        = Except.ok (RExpr.methodCall lhs "wrapping_mul" [rhs]))
      ∧ (convert_binary_operator ctx CBinOp.Divide ty (CTypeKind.uintK w)
          (CQualType.mkQ lq (CTypeKind.uintK wl)) (CQualType.mkQ rq (CTypeKind.uintK wr)) lhs rhs
        = Except.ok (RExpr.methodCall lhs "wrapping_div" [rhs]))
      ∧ (convert_binary_operator ctx CBinOp.Modulus ty (CTypeKind.uintK w)
          (CQualType.mkQ lq (CTypeKind.uintK wl)) (CQualType.mkQ rq (CTypeKind.uintK wr)) lhs rhs
        = Except.ok (RExpr.methodCall lhs "wrapping_rem" [rhs]))
      -- signed operand types: ordinary operators
      ∧ (convert_binary_operator ctx CBinOp.Add ty (CTypeKind.intK w)
          (CQualType.mkQ lq (CTypeKind.intK wl)) (CQualType.mkQ rq (CTypeKind.intK wr)) lhs rhs
        = Except.ok (RExpr.binaryE RBinOp.add lhs rhs))
      ∧ (convert_binary_operator ctx CBinOp.Subtract ty (CTypeKind.intK w)
          (CQualType.mkQ lq (CTypeKind.intK wl)) (CQualType.mkQ rq (CTypeKind.intK wr)) lhs rhs
        = Except.ok (RExpr.binaryE RBinOp.sub lhs rhs))
      ∧ (convert_binary_operator ctx CBinOp.Multiply ty (CTypeKind.intK w)
          (CQualType.mkQ lq (CTypeKind.intK wl)) (CQualType.mkQ rq (CTypeKind.intK wr)) lhs rhs
        = Except.ok (RExpr.binaryE RBinOp.mul lhs rhs))
      ∧ (convert_binary_operator ctx CBinOp.Divide ty (CTypeKind.intK w)
          (CQualType.mkQ lq (CTypeKind.intK wl)) (CQualType.mkQ rq (CTypeKind.intK wr)) lhs rhs
        = Except.ok (RExpr.binaryE RBinOp.div lhs rhs))
      ∧ (convert_binary_operator ctx CBinOp.Modulus ty (CTypeKind.intK w)
          (CQualType.mkQ lq (CTypeKind.intK wl)) (CQualType.mkQ rq (CTypeKind.intK wr)) lhs rhs
        = Except.ok (RExpr.binaryE RBinOp.rem lhs rhs))
      -- runtime semantics of the emitted unsigned code
      ∧ (∀ (a b : Nat), a < 2 ^ w → b < 2 ^ w →
          let env : String → Nat := fun s => if s = "a" then a else b
          ((convert_binary_operator ctx CBinOp.Add ty (CTypeKind.uintK w)
              (CQualType.mkQ lq (CTypeKind.uintK wl)) (CQualType.mkQ rq (CTypeKind.uintK wr))
              (RExpr.pathE ["a"]) (RExpr.pathE ["b"])).bind (evalArith w env)
            = Except.ok ((a + b) % 2 ^ w))
          ∧ ((convert_binary_operator ctx CBinOp.Subtract ty (CTypeKind.uintK w)
              (CQualType.mkQ lq (CTypeKind.uintK wl)) (CQualType.mkQ rq (CTypeKind.uintK wr))
              (RExpr.pathE ["a"]) (RExpr.pathE ["b"])).bind (evalArith w env)
            = Except.ok ((((a : Int) - (b : Int)) % ((2 ^ w : Nat) : Int)).toNat))
          ∧ ((convert_binary_operator ctx CBinOp.Multiply ty (CTypeKind.uintK w)
              (CQualType.mkQ lq (CTypeKind.uintK wl)) (CQualType.mkQ rq (CTypeKind.uintK wr))
              (RExpr.pathE ["a"]) (RExpr.pathE ["b"])).bind (evalArith w env)
            = Except.ok (a * b % 2 ^ w))
          ∧ (b ≠ 0 →
              ((convert_binary_operator ctx CBinOp.Divide ty (CTypeKind.uintK w)
                (CQualType.mkQ lq (CTypeKind.uintK wl)) (CQualType.mkQ rq (CTypeKind.uintK wr))
                (RExpr.pathE ["a"]) (RExpr.pathE ["b"])).bind (evalArith w env)
              = Except.ok (a / b)))
          ∧ (b ≠ 0 →
              ((convert_binary_operator ctx CBinOp.Modulus ty (CTypeKind.uintK w)
                (CQualType.mkQ lq (CTypeKind.uintK wl)) (CQualType.mkQ rq (CTypeKind.uintK wr))
                (RExpr.pathE ["a"]) (RExpr.pathE ["b"])).bind (evalArith w env)
              = Except.ok (a % b)))) := by
  intro ctx ty w wl wr lq rq lhs rhs
  refine ⟨rfl, rfl, rfl, rfl, rfl, rfl, rfl, rfl, rfl, rfl, ?_⟩
  intro a b ha hb
  refine ⟨?_, ?_, ?_, ?_, ?_⟩
  · simp [convert_binary_operator, convert_addition, pointer_offset,
      TypedAstContext.resolve_type, CTypeKind.is_pointer,
      CTypeKind.is_unsigned_integral_type, CQualType.ctype,
      Except.bind, evalArith, bind]
  · have hsub := wrap_sub_toNat (2 ^ w) a b ha hb
    simp [convert_binary_operator, convert_subtraction, pointer_offset,
      TypedAstContext.resolve_type, CTypeKind.is_pointer,
      CTypeKind.is_unsigned_integral_type, CQualType.ctype,
      Except.bind, evalArith, bind, hsub]
  · simp [convert_binary_operator, Except.bind, evalArith, bind]
  · intro hbne
    simp [convert_binary_operator, Except.bind, evalArith, bind, hbne]
  · intro hbne
    simp [convert_binary_operator, Except.bind, evalArith, bind, hbne]

/-- Witness for C6 at `w = 8`, `a = 255`, `b = 2`: wrapping addition
yields `1`, wrapping subtraction `253`, wrapping multiplication
`254`, division `127`, remainder `1`. -/
theorem claim_c6_witness :
    (255 < 2 ^ 8 ∧ 2 < 2 ^ 8)
    ∧ ((convert_binary_operator exCtx CBinOp.Add (RTy.pathTy ["libc", "uint8"])
        (CTypeKind.uintK 8) (CQualType.mkQ ⟨false, false⟩ (CTypeKind.uintK 8))
        (CQualType.mkQ ⟨false, false⟩ (CTypeKind.uintK 8))
        (RExpr.pathE ["a"]) (RExpr.pathE ["b"])).bind
          (evalArith 8 (fun s => if s = "a" then 255 else 2))
      = Except.ok 1) := by
  constructor
  · exact ⟨by norm_num, by norm_num⟩
  · have h := (claim_c6 exCtx (RTy.pathTy ["libc", "uint8"]) 8 8 8 ⟨false, false⟩ ⟨false, false⟩
      (RExpr.pathE ["a"]) (RExpr.pathE ["b"])).2.2.2.2.2.2.2.2.2.2 255 2
      (by norm_num) (by norm_num)
    have h1 := h.1
    norm_num at h1
    exact h1

/-- Context for the initializer-list claims: record 0 is `struct S`
with two declared int fields `x` (decl 1) and `y` (decl 2). -/
def c4ctx : TypedAstContext :=
  { decls := fun id =>
      match id with
      | 0 => CDeclKind.structDecl (some "S") [1, 2]
      | 1 => CDeclKind.fieldDecl "x" intQ
      | 2 => CDeclKind.fieldDecl "y" intQ
      | _ => CDeclKind.structDecl none []
  , c_decls_top := [] }

/-- Field names of an emitted struct literal. -/
def structFieldNames : RExpr → List String
  | .structE _ fs => fs.map Prod.fst
  | _ => []

/-- C4: evaluating the code at the failing input.  Array initializers
do pad missing trailing elements with the default out to the declared
size (first conjunct).  But a struct literal with one initializer for
a two-field struct is emitted with only the one provided field — the
padding loop `for i in ids.len()..fields.len()` is vacuous because
`fields` has exactly `ids.len()` entries at that point — so the
omitted field `y` receives no default, contradicting both the claim
and the source's own "Pad out remaining omitted record fields"
comment. -/
theorem claim_c4_bug :
    (convert_expr 8 c4ctx ExprUse.RValue
        (CExprKind.initList (CQualType.mkQ ⟨false, false⟩
          (CTypeKind.constantArray (CTypeKind.intK 32) 3))
          [CExprKind.litInt intQ 7]) Renamer.new
      = Except.ok (⟨[], RExpr.arrayE [RExpr.litInt 7, RExpr.litInt 0, RExpr.litInt 0]⟩,
          Renamer.new))
    ∧ (convert_expr 8 c4ctx ExprUse.RValue
        (CExprKind.initList (CQualType.mkQ ⟨false, false⟩ (CTypeKind.structK 0))
          [CExprKind.litInt intQ 7]) Renamer.new
      = Except.ok (⟨[], RExpr.structE "S" [("x", RExpr.litInt 7)]⟩, Renamer.new))
    ∧ structFieldNames (RExpr.structE "S" [("x", RExpr.litInt 7)]) = ["x"]
    ∧ ["x"] ≠ ["x", "y"] := by
  refine ⟨rfl, rfl, rfl, ?_⟩
  decide

/-- Context for C3: top-level declaration 0 is an anonymous struct,
declaration 1 a named (translatable) struct, in that order. -/
def c3ctx : TypedAstContext :=
  { decls := fun id =>
      match id with
      | 0 => CDeclKind.structDecl none []
      | _ => CDeclKind.structDecl (some "T") []
  , c_decls_top := [0, 1] }

/-- Context identical to `c3ctx` but with only the well-formed
declaration. -/
def c3ctxGood : TypedAstContext :=
  { decls := c3ctx.decls, c_decls_top := [1] }

/-- C3 counterexample to the claim as stated: translating a unit
whose first top-level declaration is an anonymous struct does not
return an error value to the driving loop — the whole run aborts
with a panic and the second (perfectly translatable) declaration is
never converted, whereas translating that second declaration alone
succeeds. -/
theorem claim_c3_cex :
    translate_unit 8 c3ctx
      = Except.error (TransErr.panicked "Anonymous struct declarations not implemented")
    ∧ translate_unit 8 c3ctxGood = Except.ok [RItem.structItem "T" []] :=
  ⟨rfl, rfl⟩

/-- C3 (amended): every unsupported construct — a cast to union, a
boolean-to-signed-integral cast, any complex-number cast, an
anonymous struct declaration — makes the translation panic with a
message identifying the offending construct; the panic aborts the
entire run (no error value is returned up the call chain and the
driving loop does not proceed to later declarations), and no
incorrect code is silently emitted. -/
theorem claim_c3 :
    (∀ (fuel : Nat) (ctx : TypedAstContext) (use_ : ExprUse) (ty : CQualType)
       (e : CExprKind) (r r2 : Renamer) (w : WithStmts RExpr),
      convert_expr fuel ctx use_ e r = Except.ok (w, r2) →
      convert_expr (fuel + 1) ctx use_ (CExprKind.implicitCast ty e CastKind.ToUnion) r
        = Except.error (TransErr.panicked "TODO cast to union not supported"))
    ∧ (∀ (fuel : Nat) (ctx : TypedAstContext) (use_ : ExprUse) (ty : CQualType)
       (e : CExprKind) (r r2 : Renamer) (w : WithStmts RExpr),
      convert_expr fuel ctx use_ e r = Except.ok (w, r2) →
      convert_expr (fuel + 1) ctx use_
          (CExprKind.explicitCast ty e CastKind.BooleanToSignedIntegral) r
        = Except.error (TransErr.panicked "TODO boolean to signed integral not supported"))
    ∧ (∀ (fuel : Nat) (ctx : TypedAstContext) (use_ : ExprUse) (ty : CQualType)
       (e : CExprKind) (r r2 : Renamer) (w : WithStmts RExpr) (kind : CastKind),
      kind ∈ [CastKind.FloatingRealToComplex, CastKind.FloatingComplexToIntegralComplex,
              CastKind.FloatingComplexCast, CastKind.FloatingComplexToReal,
              CastKind.IntegralComplexToReal, CastKind.IntegralRealToComplex,
              CastKind.IntegralComplexCast, CastKind.IntegralComplexToFloatingComplex,
              CastKind.IntegralComplexToBoolean] →
      convert_expr fuel ctx use_ e r = Except.ok (w, r2) →
      convert_expr (fuel + 1) ctx use_ (CExprKind.implicitCast ty e kind) r
        = Except.error (TransErr.panicked "TODO casts with complex numbers not supported"))
    ∧ (∀ (fuel : Nat) (ctx : TypedAstContext) (toplevel : Bool) (decl_id : Nat)
       (fields : List Nat) (r : Renamer),
      ctx.decls decl_id = CDeclKind.structDecl none fields →
      convert_decl fuel ctx toplevel decl_id r
        = Except.error (TransErr.panicked "Anonymous struct declarations not implemented"))
    ∧ (translate_unit 8 c3ctx
        = Except.error (TransErr.panicked "Anonymous struct declarations not implemented")
       ∧ translate_unit 8 c3ctxGood = Except.ok [RItem.structItem "T" []]) := by
  refine ⟨?_, ?_, ?_, ?_, rfl, rfl⟩
  · intro fuel ctx use_ ty e r r2 w h
    rw [convert_expr]
    simp only [bind, StateT.bind]
    rw [h]
    rfl
  · intro fuel ctx use_ ty e r r2 w h
    rw [convert_expr]
    simp only [bind, StateT.bind]
    rw [h]
    rfl
  · intro fuel ctx use_ ty e r r2 w kind hk h
    fin_cases hk <;>
      (rw [convert_expr]; simp only [bind, StateT.bind]; rw [h]; rfl)
  · intro fuel ctx toplevel decl_id fields r h
    rw [convert_decl, h]
    rfl

/-- Witness for C3 at concrete inputs: an integer literal converts
successfully, and wrapping it in each unsupported cast panics with
the construct-naming message; an anonymous struct declaration panics
at `convert_decl`. -/
theorem claim_c3_witness :
    (convert_expr 1 c3ctx ExprUse.RValue (CExprKind.litInt intQ 3) Renamer.new
      = Except.ok (WithStmts.new (RExpr.litInt 3), Renamer.new))
    ∧ convert_expr 2 c3ctx ExprUse.RValue
        (CExprKind.implicitCast intQ (CExprKind.litInt intQ 3) CastKind.ToUnion) Renamer.new
      = Except.error (TransErr.panicked "TODO cast to union not supported")
    ∧ convert_expr 2 c3ctx ExprUse.RValue
        (CExprKind.explicitCast intQ (CExprKind.litInt intQ 3)
          CastKind.BooleanToSignedIntegral) Renamer.new
      = Except.error (TransErr.panicked "TODO boolean to signed integral not supported")
    ∧ convert_expr 2 c3ctx ExprUse.RValue
        (CExprKind.implicitCast intQ (CExprKind.litInt intQ 3)
          CastKind.IntegralComplexCast) Renamer.new
      = Except.error (TransErr.panicked "TODO casts with complex numbers not supported")
    ∧ convert_decl 2 c3ctx true 0 Renamer.new
      = Except.error (TransErr.panicked "Anonymous struct declarations not implemented") := by
  have hlit : convert_expr 1 c3ctx ExprUse.RValue (CExprKind.litInt intQ 3) Renamer.new
      = Except.ok (WithStmts.new (RExpr.litInt 3), Renamer.new) := rfl
  refine ⟨hlit, ?_, ?_, ?_, ?_⟩
  · exact (claim_c3.1) 1 c3ctx ExprUse.RValue intQ (CExprKind.litInt intQ 3)
      Renamer.new Renamer.new (WithStmts.new (RExpr.litInt 3)) hlit
  · exact (claim_c3.2.1) 1 c3ctx ExprUse.RValue intQ (CExprKind.litInt intQ 3)
      Renamer.new Renamer.new (WithStmts.new (RExpr.litInt 3)) hlit
  · exact (claim_c3.2.2.1) 1 c3ctx ExprUse.RValue intQ (CExprKind.litInt intQ 3)
      Renamer.new Renamer.new (WithStmts.new (RExpr.litInt 3)) CastKind.IntegralComplexCast
      (by simp) hlit
  · exact (claim_c3.2.2.2.1) 2 c3ctx true 0 [] Renamer.new rfl

/-- Context for C2: integer variables `a` (decl 10), `b` (11),
`i` (13) and pointer variable `p` (12). -/
def c2ctx : TypedAstContext :=
  { decls := fun id =>
      match id with
      | 10 => CDeclKind.variable false false "a" none intQ
      | 11 => CDeclKind.variable false false "b" none intQ
      | 12 => CDeclKind.variable false false "p" none ptrIntQ
      | _ => CDeclKind.variable false false "i" none intQ
  , c_decls_top := [] }

/-- Renamer binding the four C2 variables to themselves. -/
def c2renamer : Renamer :=
  { scopes := [[("a", "a"), ("b", "b"), ("p", "p"), ("i", "i")]], counter := 0 }

/-- The subscript base of the C2 counterexample: the side-effecting
pointer expression `(a = 1, p)`. -/
def c2base : CExprKind :=
  CExprKind.binary ptrIntQ CBinOp.Comma
    (CExprKind.binary intQ CBinOp.Assign (CExprKind.declRef intQ 10) (CExprKind.litInt intQ 1))
    (CExprKind.declRef ptrIntQ 12)

/-- The subscript index of the C2 counterexample: the side-effecting
integer expression `(b = 2, i)`. -/
def c2index : CExprKind :=
  CExprKind.binary intQ CBinOp.Comma
    (CExprKind.binary intQ CBinOp.Assign (CExprKind.declRef intQ 11) (CExprKind.litInt intQ 2))
    (CExprKind.declRef intQ 13)

/-- C2 counterexample: translating the array subscript
`(a = 1, p)[(b = 2, i)]` emits the index's side effect `b = 2`
before the base's side effect `a = 1` — the reverse of left-to-right
source order. -/
theorem claim_c2_cex :
    convert_expr 10 c2ctx ExprUse.RValue
        (CExprKind.arraySubscript intQ c2base c2index) c2renamer
      = Except.ok
          (⟨[RStmt.exprS (RExpr.assignE (RExpr.pathE ["b"]) (RExpr.litInt 2)),
             RStmt.exprS (RExpr.assignE (RExpr.pathE ["a"]) (RExpr.litInt 1))],
            RExpr.unaryE RUnOp.deref (pointer_offset (RExpr.pathE ["p"]) (RExpr.pathE ["i"]))⟩,
           c2renamer)
    ∧ [RStmt.exprS (RExpr.assignE (RExpr.pathE ["b"]) (RExpr.litInt 2)),
       RStmt.exprS (RExpr.assignE (RExpr.pathE ["a"]) (RExpr.litInt 1))]
      ≠ [RStmt.exprS (RExpr.assignE (RExpr.pathE ["a"]) (RExpr.litInt 1)),
         RStmt.exprS (RExpr.assignE (RExpr.pathE ["b"]) (RExpr.litInt 2))] := by
  refine ⟨rfl, ?_⟩
  simp

/-- C2 (amended): for a function call, the callee's statements
precede the arguments' statements, which appear in left-to-right
argument order (and an unused call value additionally appends the
call itself as a statement); for a non-assignment binary operator the
left operand's statements precede the right operand's; but for an
array subscript whose base operand is the pointer, the *index's*
statements are emitted before the base's. -/
theorem claim_c2 :
    (∀ (fuel : Nat) (ctx : TypedAstContext) (use_ : ExprUse) (qty : CQualType)
       (f : CExprKind) (args : List CExprKind) (r s1 s2 : Renamer)
       (wf : WithStmts RExpr) (sargs : List RStmt) (vargs : List RExpr),
      convert_expr fuel ctx ExprUse.RValue f r = Except.ok (wf, s1) →
      convert_call_args fuel ctx args s1 = Except.ok ((sargs, vargs), s2) →
      (use_ ≠ ExprUse.Unused →
        convert_expr (fuel + 1) ctx use_ (CExprKind.callK qty f args) r
          = Except.ok (⟨wf.stmts ++ sargs, RExpr.callE wf.val vargs⟩, s2))
      ∧ (convert_expr (fuel + 1) ctx ExprUse.Unused (CExprKind.callK qty f args) r
          = Except.ok (⟨wf.stmts ++ sargs ++ [RStmt.semiS (RExpr.callE wf.val vargs)],
                        translationPanic⟩, s2)))
    ∧ (∀ (fuel : Nat) (ctx : TypedAstContext) (a : CExprKind) (rest : List CExprKind)
       (r s1 s2 : Renamer) (w : WithStmts RExpr) (ss : List RStmt) (vs : List RExpr),
      convert_expr fuel ctx ExprUse.RValue a r = Except.ok (w, s1) →
      convert_call_args fuel ctx rest s1 = Except.ok ((ss, vs), s2) →
      convert_call_args (fuel + 1) ctx (a :: rest) r
        = Except.ok ((w.stmts ++ ss, w.val :: vs), s2))
    ∧ (∀ (fuel : Nat) (ctx : TypedAstContext) (use_ : ExprUse) (qty : CQualType)
       (op : CBinOp) (l rhs : CExprKind) (r s1 s2 : Renamer)
       (wl wr : WithStmts RExpr) (v : RExpr),
      op ∈ [CBinOp.Add, CBinOp.Subtract, CBinOp.Multiply, CBinOp.Divide, CBinOp.Modulus,
            CBinOp.BitXor, CBinOp.ShiftLeft, CBinOp.ShiftRight,
            CBinOp.EqualEqual, CBinOp.NotEqual, CBinOp.Less, CBinOp.Greater,
            CBinOp.LessEqual, CBinOp.GreaterEqual, CBinOp.BitAnd, CBinOp.BitOr] →
      convert_expr fuel ctx ExprUse.RValue l r = Except.ok (wl, s1) →
      convert_expr fuel ctx ExprUse.RValue rhs s1 = Except.ok (wr, s2) →
      convert_binary_operator ctx op (convert_type qty.ctype) qty.ctype
          l.get_qual_type rhs.get_qual_type wl.val wr.val = Except.ok v →
      convert_expr (fuel + 1) ctx use_ (CExprKind.binary qty op l rhs) r
        = Except.ok (⟨wl.stmts ++ wr.stmts, v⟩, s2))
    ∧ (∀ (fuel : Nat) (ctx : TypedAstContext) (use_ : ExprUse) (qty : CQualType)
       (l rhs : CExprKind) (r s1 s2 : Renamer) (wl wr : WithStmts RExpr),
      (ctx.resolve_type l.get_type).is_pointer = true →
      decayedArray l = none →
      convert_expr fuel ctx ExprUse.RValue rhs r = Except.ok (wr, s1) →
      convert_expr fuel ctx ExprUse.RValue l s1 = Except.ok (wl, s2) →
      convert_expr (fuel + 1) ctx use_ (CExprKind.arraySubscript qty l rhs) r
        = Except.ok (⟨wr.stmts ++ wl.stmts,
            RExpr.unaryE RUnOp.deref (pointer_offset wl.val wr.val)⟩, s2)) := by
  refine ⟨?_, ?_, ?_, ?_⟩
  · intro fuel ctx use_ qty f args r s1 s2 wf sargs vargs h1 h2
    constructor
    · intro hne
      rw [convert_expr]
      simp only [bind, StateT.bind]
      rw [h1]
      simp only [Except.bind]
      rw [h2]
      simp only [Except.bind]
      rw [if_neg hne]
      rfl
    · rw [convert_expr]
      simp only [bind, StateT.bind]
      rw [h1]
      simp only [Except.bind]
      rw [h2]
      simp only [Except.bind]
      rfl
  · intro fuel ctx a rest r s1 s2 w ss vs h1 h2
    rw [convert_call_args]
    simp only [bind, StateT.bind]
    rw [h1]
    simp only [Except.bind]
    rw [h2]
    rfl
  · intro fuel ctx use_ qty op l rhs r s1 s2 wl wr v hop h1 h2 hv
    fin_cases hop <;>
      (rw [convert_expr]
       all_goals try decide
       simp only [bind, StateT.bind]
       rw [h1]
       simp only [Except.bind]
       rw [h2]
       simp only [Except.bind, liftT]
       rw [hv]
       rfl)
  · intro fuel ctx use_ qty l rhs r s1 s2 wl wr hptr hdecay h1 h2
    rw [convert_expr]
    simp only [hptr, if_true, bind, StateT.bind]
    rw [h1]
    simp only [Except.bind]
    simp only [hdecay]
    try simp only [StateT.bind]
    rw [h2]
    rfl

/-- Witness for C2 at concrete inputs: the call `p((a = 1, i))` in
`RValue` context, the argument list `[(a = 1, i)]`, the binary
expression `(a = 1, i) < i`, and the subscript `p[(b = 2, i)]`. -/
theorem claim_c2_witness :
    (convert_expr 9 c2ctx ExprUse.RValue
        (CExprKind.callK intQ (CExprKind.declRef ptrIntQ 12) [c2index]) c2renamer
      = Except.ok (⟨[RStmt.exprS (RExpr.assignE (RExpr.pathE ["b"]) (RExpr.litInt 2))],
          RExpr.callE (RExpr.pathE ["p"]) [RExpr.pathE ["i"]]⟩, c2renamer))
    ∧ (convert_expr 9 c2ctx ExprUse.RValue
        (CExprKind.binary intQ CBinOp.Less c2index (CExprKind.declRef intQ 13)) c2renamer
      = Except.ok (⟨[RStmt.exprS (RExpr.assignE (RExpr.pathE ["b"]) (RExpr.litInt 2))],
          bool_to_int (RExpr.binaryE RBinOp.lt (RExpr.pathE ["i"]) (RExpr.pathE ["i"]))⟩,
          c2renamer))
    ∧ (convert_expr 9 c2ctx ExprUse.RValue
        (CExprKind.arraySubscript intQ (CExprKind.declRef ptrIntQ 12) c2index) c2renamer
      = Except.ok (⟨[RStmt.exprS (RExpr.assignE (RExpr.pathE ["b"]) (RExpr.litInt 2))],
          RExpr.unaryE RUnOp.deref
            (pointer_offset (RExpr.pathE ["p"]) (RExpr.pathE ["i"]))⟩, c2renamer)) := by
  refine ⟨?_, ?_, ?_⟩
  · exact ((claim_c2.1 8 c2ctx ExprUse.RValue intQ (CExprKind.declRef ptrIntQ 12) [c2index]
      c2renamer c2renamer c2renamer (WithStmts.new (RExpr.pathE ["p"]))
      [RStmt.exprS (RExpr.assignE (RExpr.pathE ["b"]) (RExpr.litInt 2))]
      [RExpr.pathE ["i"]] rfl rfl).1 (by decide))
  · exact claim_c2.2.2.1 8 c2ctx ExprUse.RValue intQ CBinOp.Less c2index
      (CExprKind.declRef intQ 13) c2renamer c2renamer c2renamer
      ⟨[RStmt.exprS (RExpr.assignE (RExpr.pathE ["b"]) (RExpr.litInt 2))], RExpr.pathE ["i"]⟩
      (WithStmts.new (RExpr.pathE ["i"])) _ (by simp) rfl rfl rfl
  · exact claim_c2.2.2.2 8 c2ctx ExprUse.RValue intQ (CExprKind.declRef ptrIntQ 12) c2index
      c2renamer c2renamer c2renamer (WithStmts.new (RExpr.pathE ["p"]))
      ⟨[RStmt.exprS (RExpr.assignE (RExpr.pathE ["b"]) (RExpr.litInt 2))], RExpr.pathE ["i"]⟩
      rfl rfl rfl rfl

/-- Helper: converting a `DeclRef` in `LValue` context yields the
bare renamed path, with no statements and no volatile read. -/
theorem convert_expr_declRef_lvalue (fuel : Nat) (ctx : TypedAstContext) (qty : CQualType)
    (d : Nat) (r : Renamer) (varname rust : String)
    (hname : (ctx.decls d).get_name = some varname)
    (hget : r.get varname = some rust) :
    convert_expr (fuel + 1) ctx ExprUse.LValue (CExprKind.declRef qty d) r
      = Except.ok (⟨[], RExpr.pathE [rust]⟩, r) := by
  rw [convert_expr]
  simp only [hname, expectT, bind, StateT.bind, renamerGet, pure, StateT.pure, Except.bind,
    Except.pure]
  rw [hget]
  rfl

/-- Helper: converting a volatile `DeclRef` in any non-`LValue`
context wraps the renamed path in an explicit volatile read. -/
theorem convert_expr_declRef_volatile (fuel : Nat) (ctx : TypedAstContext) (use_ : ExprUse)
    (qty : CQualType) (d : Nat) (r : Renamer) (varname rust : String)
    (huse : use_ ≠ ExprUse.LValue)
    (hvol : qty.qualifiers.is_volatile = true)
    (hname : (ctx.decls d).get_name = some varname)
    (hget : r.get varname = some rust) :
    convert_expr (fuel + 1) ctx use_ (CExprKind.declRef qty d) r
      = Except.ok (⟨[], volatile_read (RExpr.pathE [rust]) qty.ctype⟩, r) := by
  rw [convert_expr]
  simp only [hname, expectT, bind, StateT.bind, renamerGet, pure, StateT.pure, Except.bind,
    Except.pure]
  rw [hget]
  simp only [expectT, pure, StateT.pure, Except.bind, Except.pure]
  rw [if_pos ⟨huse, hvol⟩]
  rfl

/-- Helper: `name_reference_write` on a `DeclRef` produces the bare
path as write target with no hoisting statements. -/
theorem name_reference_write_declRef (fuel : Nat) (ctx : TypedAstContext) (qty : CQualType)
    (d : Nat) (r : Renamer) (varname rust : String)
    (hname : (ctx.decls d).get_name = some varname)
    (hget : r.get varname = some rust) :
    name_reference_write (fuel + 3) ctx (CExprKind.declRef qty d) r
      = Except.ok (⟨[], RExpr.pathE [rust]⟩, r) := by
  rw [name_reference_write]
  simp only [bind, StateT.bind]
  rw [name_reference]
  simp only [bind, StateT.bind]
  rw [convert_expr_declRef_lvalue fuel ctx qty d r varname rust hname hget]
  rfl

/-- Helper: `name_reference_write_read` on a volatile `DeclRef`
produces the bare path as write target and a single explicit
volatile read as read source. -/
theorem name_reference_write_read_declRef_volatile (fuel : Nat) (ctx : TypedAstContext)
    (qty : CQualType) (d : Nat) (r : Renamer) (varname rust : String)
    (hvol : qty.qualifiers.is_volatile = true)
    (hname : (ctx.decls d).get_name = some varname)
    (hget : r.get varname = some rust) :
    name_reference_write_read (fuel + 3) ctx (CExprKind.declRef qty d) r
      = Except.ok (⟨[], (RExpr.pathE [rust], volatile_read (RExpr.pathE [rust]) qty.ctype)⟩,
          r) := by
  rw [name_reference_write_read]
  simp only [bind, StateT.bind]
  rw [name_reference]
  simp only [bind, StateT.bind]
  rw [convert_expr_declRef_lvalue fuel ctx qty d r varname rust hname hget]
  simp only [Except.bind, is_lvalue, is_simple_lvalue, CExprKind.get_qual_type, hvol]
  rfl

/-- A per-node score distributes over statement-list append. -/
theorem scoreSL_append (f : RExpr → Nat) (a b : List RStmt) :
    scoreSL f (a ++ b) = scoreSL f a + scoreSL f b := by
  induction a with
  | nil => simp [scoreSL]
  | cons s ss ih => simp [scoreSL, ih]; omega

/-- Helper: compound assignment to a volatile `DeclRef` desugars
into one `write_volatile` statement whose stored value applies the
underlying operator to an explicit volatile read, and the result
value is that volatile read. -/
theorem assign_compound_volatile_declRef (fuel : Nat) (ctx : TypedAstContext) (use_ : ExprUse)
    (op op2 : CBinOp) (qty : CQualType) (d : Nat) (rhs : CExprKind) (r s1 : Renamer)
    (varname rust : String) (rhsW : WithStmts RExpr) (ty : RTy) (ctype : CTypeKind) (v : RExpr)
    (hop : op.underlying_assignment = some op2)
    (hvol : qty.qualifiers.is_volatile = true)
    (hname : (ctx.decls d).get_name = some varname)
    (hget : r.get varname = some rust)
    (hrhs : convert_expr (fuel + 3) ctx ExprUse.RValue rhs r = Except.ok (rhsW, s1))
    (hv : convert_binary_operator ctx op2 ty ctype qty rhs.get_qual_type
            (volatile_read (RExpr.pathE [rust]) qty.ctype) rhsW.val = Except.ok v) :
    convert_assignment_operator (fuel + 4) ctx use_ op ty ctype
        (CExprKind.declRef qty d) rhs r
      = Except.ok (⟨rhsW.stmts ++
            [RStmt.exprS (volatile_write (RExpr.pathE [rust]) qty.ctype v)],
          volatile_read (RExpr.pathE [rust]) qty.ctype⟩, s1) := by
  have hne : op ≠ CBinOp.Assign := by
    intro h
    rw [h] at hop
    simp [CBinOp.underlying_assignment] at hop
  rw [convert_assignment_operator]
  simp only [bind, StateT.bind, CExprKind.get_qual_type, hop, hvol,
    Option.isSome_some, Bool.and_self]
  rw [if_pos (Or.inr trivial)]
  simp only [StateT.bind]
  rw [name_reference_write_read_declRef_volatile fuel ctx qty d r varname rust hvol hname hget]
  simp only [bind, StateT.bind, Except.bind, pure, StateT.pure, Except.pure]
  rw [hrhs]
  simp only [bind, StateT.bind, Except.bind, pure, StateT.pure, Except.pure]
  rw [if_neg hne, if_pos trivial]
  simp only [expectT, hop, pure, StateT.pure, Except.pure, bind, StateT.bind, Except.bind,
    liftT]
  simp only [CExprKind.get_qual_type] at hv
  rw [hv]
  rfl

/-- C7: volatile accesses.  (1) A volatile variable read in a
non-`LValue` context always emits an explicit `read_volatile`;
(2) in `LValue` context the bare location is produced; (3) a plain
assignment to a non-volatile variable emits a direct store, while
(4) a plain assignment to a volatile variable is routed through an
explicit `write_volatile` call; (5) a compound assignment to a
volatile variable desugars into the single statement
`write_volatile(&mut x, <op>(read_volatile(&x), rhs))` whose value
is the explicit volatile read — never a native fused
compound-assignment operator; and (6) for `+=` on a volatile signed
int with a side-effect-free right-hand side, the emitted statement
list contains exactly one `read_volatile`, exactly one
`write_volatile`, and no fused compound assignment. -/
theorem claim_c7 :
    (∀ (fuel : Nat) (ctx : TypedAstContext) (use_ : ExprUse) (qty : CQualType) (d : Nat)
       (r : Renamer) (varname rust : String),
      use_ ≠ ExprUse.LValue →
      qty.qualifiers.is_volatile = true →
      (ctx.decls d).get_name = some varname →
      r.get varname = some rust →
      convert_expr (fuel + 1) ctx use_ (CExprKind.declRef qty d) r
        = Except.ok (⟨[], volatile_read (RExpr.pathE [rust]) qty.ctype⟩, r))
    ∧ (∀ (fuel : Nat) (ctx : TypedAstContext) (qty : CQualType) (d : Nat)
       (r : Renamer) (varname rust : String),
      (ctx.decls d).get_name = some varname →
      r.get varname = some rust →
      convert_expr (fuel + 1) ctx ExprUse.LValue (CExprKind.declRef qty d) r
        = Except.ok (⟨[], RExpr.pathE [rust]⟩, r))
    ∧ (∀ (fuel : Nat) (ctx : TypedAstContext) (qty : CQualType) (d : Nat) (rhs : CExprKind)
       (r s1 : Renamer) (varname rust : String) (rhsW : WithStmts RExpr)
       (ty : RTy) (ctype : CTypeKind),
      qty.qualifiers.is_volatile = false →
      (ctx.decls d).get_name = some varname →
      r.get varname = some rust →
      convert_expr (fuel + 3) ctx ExprUse.RValue rhs r = Except.ok (rhsW, s1) →
      convert_assignment_operator (fuel + 4) ctx ExprUse.Unused CBinOp.Assign ty ctype
          (CExprKind.declRef qty d) rhs r
        = Except.ok (⟨rhsW.stmts ++
              [RStmt.exprS (RExpr.assignE (RExpr.pathE [rust]) rhsW.val)],
            translationPanic⟩, s1))
    ∧ (∀ (fuel : Nat) (ctx : TypedAstContext) (qty : CQualType) (d : Nat) (rhs : CExprKind)
       (r s1 : Renamer) (varname rust : String) (rhsW : WithStmts RExpr)
       (ty : RTy) (ctype : CTypeKind),
      qty.qualifiers.is_volatile = true →
      (ctx.decls d).get_name = some varname →
      r.get varname = some rust →
      convert_expr (fuel + 3) ctx ExprUse.RValue rhs r = Except.ok (rhsW, s1) →
      convert_assignment_operator (fuel + 4) ctx ExprUse.Unused CBinOp.Assign ty ctype
          (CExprKind.declRef qty d) rhs r
        = Except.ok (⟨rhsW.stmts ++
              [RStmt.exprS (volatile_write (RExpr.pathE [rust]) qty.ctype rhsW.val)],
            translationPanic⟩, s1))
    ∧ (∀ (fuel : Nat) (ctx : TypedAstContext) (use_ : ExprUse) (op op2 : CBinOp)
       (qty : CQualType) (d : Nat) (rhs : CExprKind) (r s1 : Renamer)
       (varname rust : String) (rhsW : WithStmts RExpr) (ty : RTy) (ctype : CTypeKind)
       (v : RExpr),
      op.underlying_assignment = some op2 →
      qty.qualifiers.is_volatile = true →
      (ctx.decls d).get_name = some varname →
      r.get varname = some rust →
      convert_expr (fuel + 3) ctx ExprUse.RValue rhs r = Except.ok (rhsW, s1) →
      convert_binary_operator ctx op2 ty ctype qty rhs.get_qual_type
          (volatile_read (RExpr.pathE [rust]) qty.ctype) rhsW.val = Except.ok v →
      convert_assignment_operator (fuel + 4) ctx use_ op ty ctype
          (CExprKind.declRef qty d) rhs r
        = Except.ok (⟨rhsW.stmts ++
              [RStmt.exprS (volatile_write (RExpr.pathE [rust]) qty.ctype v)],
            volatile_read (RExpr.pathE [rust]) qty.ctype⟩, s1))
    ∧ (∀ (fuel : Nat) (ctx : TypedAstContext) (use_ : ExprUse) (w : Nat) (q : CQualifiers)
       (d : Nat) (rhs : CExprKind) (r s1 : Renamer) (varname rust : String)
       (rhsW : WithStmts RExpr) (ty : RTy) (ctype : CTypeKind)
       (ws : WithStmts RExpr) (s2 : Renamer),
      q.is_volatile = true →
      (ctx.decls d).get_name = some varname →
      r.get varname = some rust →
      convert_expr (fuel + 3) ctx ExprUse.RValue rhs r = Except.ok (rhsW, s1) →
      (ctx.resolve_type rhs.get_qual_type.ctype).is_pointer = false →
      scoreSL isReadVolatileCall rhsW.stmts = 0 →
      scoreE isReadVolatileCall rhsW.val = 0 →
      scoreSL isWriteVolatileCall rhsW.stmts = 0 →
      scoreE isWriteVolatileCall rhsW.val = 0 →
      scoreSL isFusedAssignOp rhsW.stmts = 0 →
      scoreE isFusedAssignOp rhsW.val = 0 →
      convert_assignment_operator (fuel + 4) ctx use_ CBinOp.AssignAdd ty ctype
          (CExprKind.declRef (CQualType.mkQ q (CTypeKind.intK w)) d) rhs r
        = Except.ok (ws, s2) →
      countReadVolatile ws.stmts = 1
      ∧ countWriteVolatile ws.stmts = 1
      ∧ countFusedAssign ws.stmts = 0) := by
  refine ⟨?_, ?_, ?_, ?_, ?_, ?_⟩
  · intro fuel ctx use_ qty d r varname rust huse hvol hname hget
    exact convert_expr_declRef_volatile fuel ctx use_ qty d r varname rust huse hvol hname hget
  · intro fuel ctx qty d r varname rust hname hget
    exact convert_expr_declRef_lvalue fuel ctx qty d r varname rust hname hget
  · intro fuel ctx qty d rhs r s1 varname rust rhsW ty ctype hnv hname hget hrhs
    rw [convert_assignment_operator]
    simp only [bind, StateT.bind, CExprKind.get_qual_type, CBinOp.underlying_assignment,
      Option.isSome_none, Bool.false_and, hnv]
    rw [if_neg (by simp)]
    simp only [StateT.bind]
    rw [name_reference_write_declRef fuel ctx qty d r varname rust hname hget]
    simp only [bind, StateT.bind, Except.bind, pure, StateT.pure, Except.pure]
    rw [hrhs]
    simp only [bind, StateT.bind, Except.bind, pure, StateT.pure, Except.pure]
    rfl
  · intro fuel ctx qty d rhs r s1 varname rust rhsW ty ctype hvol hname hget hrhs
    rw [convert_assignment_operator]
    simp only [bind, StateT.bind, CExprKind.get_qual_type, CBinOp.underlying_assignment,
      Option.isSome_none, Bool.false_and, hvol]
    rw [if_neg (by simp)]
    simp only [StateT.bind]
    rw [name_reference_write_declRef fuel ctx qty d r varname rust hname hget]
    simp only [bind, StateT.bind, Except.bind, pure, StateT.pure, Except.pure]
    rw [hrhs]
    simp only [bind, StateT.bind, Except.bind, pure, StateT.pure, Except.pure]
    rfl
  · intro fuel ctx use_ op op2 qty d rhs r s1 varname rust rhsW ty ctype v
      hop hvol hname hget hrhs hv
    exact assign_compound_volatile_declRef fuel ctx use_ op op2 qty d rhs r s1
      varname rust rhsW ty ctype v hop hvol hname hget hrhs hv
  · intro fuel ctx use_ w q d rhs r s1 varname rust rhsW ty ctype ws s2
      hvol hname hget hrhs hrp hr1 hr2 hw1 hw2 hf1 hf2 hres
    have hqty : (CQualType.mkQ q (CTypeKind.intK w)).qualifiers.is_volatile = true := hvol
    have hv : convert_binary_operator ctx CBinOp.Add ty ctype
        (CQualType.mkQ q (CTypeKind.intK w)) rhs.get_qual_type
        (volatile_read (RExpr.pathE [rust]) (CQualType.mkQ q (CTypeKind.intK w)).ctype)
        rhsW.val
        = Except.ok (RExpr.binaryE RBinOp.add
            (volatile_read (RExpr.pathE [rust]) (CQualType.mkQ q (CTypeKind.intK w)).ctype)
            rhsW.val) := by
      simp only [TypedAstContext.resolve_type, CQualType.ctype, CTypeKind.is_pointer] at hrp
      rw [convert_binary_operator]
      simp only [convert_addition, TypedAstContext.resolve_type, CQualType.ctype,
        CTypeKind.is_pointer, CTypeKind.is_unsigned_integral_type, hrp]
      rfl
    have hcomp := assign_compound_volatile_declRef fuel ctx use_ CBinOp.AssignAdd CBinOp.Add
      (CQualType.mkQ q (CTypeKind.intK w)) d rhs r s1 varname rust rhsW ty ctype
      (RExpr.binaryE RBinOp.add
        (volatile_read (RExpr.pathE [rust]) (CQualType.mkQ q (CTypeKind.intK w)).ctype)
        rhsW.val)
      rfl hqty hname hget hrhs hv
    rw [hcomp] at hres
    have hws : ws = ⟨rhsW.stmts ++
        [RStmt.exprS (volatile_write (RExpr.pathE [rust])
          (CQualType.mkQ q (CTypeKind.intK w)).ctype
          (RExpr.binaryE RBinOp.add
            (volatile_read (RExpr.pathE [rust]) (CQualType.mkQ q (CTypeKind.intK w)).ctype)
            rhsW.val))],
        volatile_read (RExpr.pathE [rust]) (CQualType.mkQ q (CTypeKind.intK w)).ctype⟩ := by
      injection hres with h1
      injection h1 with h2 h3
      exact h2.symm
    subst hws
    refine ⟨?_, ?_, ?_⟩
    · rw [countReadVolatile, scoreSL_append, hr1]
      simp [scoreSL, scoreStmt, scoreE, scoreL, volatile_write, volatile_read,
        isReadVolatileCall, hr2, CQualType.ctype]
    · rw [countWriteVolatile, scoreSL_append, hw1]
      simp [scoreSL, scoreStmt, scoreE, scoreL, volatile_write, volatile_read,
        isWriteVolatileCall, hw2, CQualType.ctype]
    · rw [countFusedAssign, scoreSL_append, hf1]
      simp [scoreSL, scoreStmt, scoreE, scoreL, volatile_write, volatile_read,
        isFusedAssignOp, hf2, CQualType.ctype]

/-- A volatile-qualified signed int type. -/
def volQ : CQualType := CQualType.mkQ ⟨false, true⟩ (CTypeKind.intK 32)

/-- Context for the C7 witness: decl 20 is the volatile int
variable `v`. -/
def c7ctx : TypedAstContext :=
  { decls := fun _ => CDeclKind.variable false false "v" none volQ, c_decls_top := [] }

/-- Renamer binding `v` to itself. -/
def c7ren : Renamer := { scopes := [[("v", "v")]], counter := 0 }

/-- Witness for C7 at the volatile int variable `v` with right-hand
side `1`: the volatile read in `RValue` context, the volatile store
for `v = 1`, the desugared compound statement for `v += 1`, and its
exact access counts. -/
theorem claim_c7_witness :
    (convert_expr 1 c7ctx ExprUse.RValue (CExprKind.declRef volQ 20) c7ren
      = Except.ok (⟨[], volatile_read (RExpr.pathE ["v"]) volQ.ctype⟩, c7ren))
    ∧ (convert_assignment_operator 4 c7ctx ExprUse.Unused CBinOp.Assign
        (convert_type volQ.ctype) volQ.ctype (CExprKind.declRef volQ 20)
        (CExprKind.litInt intQ 1) c7ren
      = Except.ok (⟨[RStmt.exprS (volatile_write (RExpr.pathE ["v"]) volQ.ctype
            (RExpr.litInt 1))], translationPanic⟩, c7ren))
    ∧ (convert_assignment_operator 4 c7ctx ExprUse.Unused CBinOp.AssignAdd
        (convert_type volQ.ctype) volQ.ctype (CExprKind.declRef volQ 20)
        (CExprKind.litInt intQ 1) c7ren
      = Except.ok (⟨[RStmt.exprS (volatile_write (RExpr.pathE ["v"]) volQ.ctype
            (RExpr.binaryE RBinOp.add
              (volatile_read (RExpr.pathE ["v"]) volQ.ctype) (RExpr.litInt 1)))],
          volatile_read (RExpr.pathE ["v"]) volQ.ctype⟩, c7ren))
    ∧ countReadVolatile [RStmt.exprS (volatile_write (RExpr.pathE ["v"]) volQ.ctype
          (RExpr.binaryE RBinOp.add
            (volatile_read (RExpr.pathE ["v"]) volQ.ctype) (RExpr.litInt 1)))] = 1
    ∧ countWriteVolatile [RStmt.exprS (volatile_write (RExpr.pathE ["v"]) volQ.ctype
          (RExpr.binaryE RBinOp.add
            (volatile_read (RExpr.pathE ["v"]) volQ.ctype) (RExpr.litInt 1)))] = 1
    ∧ countFusedAssign [RStmt.exprS (volatile_write (RExpr.pathE ["v"]) volQ.ctype
          (RExpr.binaryE RBinOp.add
            (volatile_read (RExpr.pathE ["v"]) volQ.ctype) (RExpr.litInt 1)))] = 0 := by
  refine ⟨?_, ?_, ?_, ?_, ?_, ?_⟩
  · exact claim_c7.1 0 c7ctx ExprUse.RValue volQ 20 c7ren "v" "v"
      (by decide) rfl rfl rfl
  · exact claim_c7.2.2.2.1 0 c7ctx volQ 20 (CExprKind.litInt intQ 1) c7ren c7ren "v" "v"
      (WithStmts.new (RExpr.litInt 1)) (convert_type volQ.ctype) volQ.ctype rfl rfl rfl rfl
  · exact claim_c7.2.2.2.2.1 0 c7ctx ExprUse.Unused CBinOp.AssignAdd CBinOp.Add volQ 20
      (CExprKind.litInt intQ 1) c7ren c7ren "v" "v" (WithStmts.new (RExpr.litInt 1))
      (convert_type volQ.ctype) volQ.ctype
      (RExpr.binaryE RBinOp.add (volatile_read (RExpr.pathE ["v"]) volQ.ctype)
        (RExpr.litInt 1)) rfl rfl rfl rfl rfl rfl
  · have h := claim_c7.2.2.2.2.2 0 c7ctx ExprUse.Unused 32 ⟨false, true⟩ 20
      (CExprKind.litInt intQ 1) c7ren c7ren "v" "v" (WithStmts.new (RExpr.litInt 1))
      (convert_type volQ.ctype) volQ.ctype
      ⟨[RStmt.exprS (volatile_write (RExpr.pathE ["v"]) volQ.ctype
          (RExpr.binaryE RBinOp.add
            (volatile_read (RExpr.pathE ["v"]) volQ.ctype) (RExpr.litInt 1)))],
        volatile_read (RExpr.pathE ["v"]) volQ.ctype⟩ c7ren
      rfl rfl rfl rfl rfl rfl rfl rfl rfl rfl rfl rfl
    exact h.1
  · have h := claim_c7.2.2.2.2.2 0 c7ctx ExprUse.Unused 32 ⟨false, true⟩ 20
      (CExprKind.litInt intQ 1) c7ren c7ren "v" "v" (WithStmts.new (RExpr.litInt 1))
      (convert_type volQ.ctype) volQ.ctype
      ⟨[RStmt.exprS (volatile_write (RExpr.pathE ["v"]) volQ.ctype
          (RExpr.binaryE RBinOp.add
            (volatile_read (RExpr.pathE ["v"]) volQ.ctype) (RExpr.litInt 1)))],
        volatile_read (RExpr.pathE ["v"]) volQ.ctype⟩ c7ren
      rfl rfl rfl rfl rfl rfl rfl rfl rfl rfl rfl rfl
    exact h.2.1
  · have h := claim_c7.2.2.2.2.2 0 c7ctx ExprUse.Unused 32 ⟨false, true⟩ 20
      (CExprKind.litInt intQ 1) c7ren c7ren "v" "v" (WithStmts.new (RExpr.litInt 1))
      (convert_type volQ.ctype) volQ.ctype
      ⟨[RStmt.exprS (volatile_write (RExpr.pathE ["v"]) volQ.ctype
          (RExpr.binaryE RBinOp.add
            (volatile_read (RExpr.pathE ["v"]) volQ.ctype) (RExpr.litInt 1)))],
        volatile_read (RExpr.pathE ["v"]) volQ.ctype⟩ c7ren
      rfl rfl rfl rfl rfl rfl rfl rfl rfl rfl rfl rfl
    exact h.2.2

/-- C9: variant-splitting call-site rewriting.  `apply_suffix` ticks
the ghost rewrite counter exactly once and renames to the mono name
(span unchanged).  During pass 1 inside a clone: a call site whose
span is registered is recorded as handled and (a) rewritten to the
callee's required mono — looked up through the clone's own mono
record — exactly once when the callee is split, or (b) left
unchanged when the callee is not split; (c) an expression with no
registered span is untouched.  During pass 2: (d) a span handled in
pass 1 is never rewritten again; (e) a call from a still-unsplit
caller to a split callee is rewritten exactly once through the
caller's first mono record `monos[0]`; (f) a call to a non-split
callee is left unchanged. -/
theorem claim_c9 :
    (∀ (suffix : String) (e : CallExpr),
      (apply_suffix suffix e).rewrites = e.rewrites + 1
      ∧ (apply_suffix suffix e).name = mono_name e.name suffix
      ∧ (apply_suffix suffix e).span = e.span)
    ∧ (∀ (ana : AnalysisResult) (sfi : List (Nat × Nat)) (marked : Nat → Bool)
       (fr : FnRecord) (mr : MonoRecord) (handled : List Nat) (e : CallExpr)
       (fref_idx : Nat) (fref : FuncRef) (cmi : Nat) (cfr : FnRecord) (cmono : MonoRecord),
      lookupSpan sfi e.span = some fref_idx →
      fr.func_refs.get? fref_idx = some fref →
      marked fref.def_id = true →
      mr.callee_mono_idxs.get? fref_idx = some cmi →
      ana.find fref.def_id = some cfr →
      cfr.monos.get? cmi = some cmono →
      rewrite_expr_split ana sfi marked fr mr handled e
        = Except.ok (apply_suffix cmono.suffix e, e.span :: handled))
    ∧ (∀ (ana : AnalysisResult) (sfi : List (Nat × Nat)) (marked : Nat → Bool)
       (fr : FnRecord) (mr : MonoRecord) (handled : List Nat) (e : CallExpr)
       (fref_idx : Nat) (fref : FuncRef),
      lookupSpan sfi e.span = some fref_idx →
      fr.func_refs.get? fref_idx = some fref →
      marked fref.def_id = false →
      rewrite_expr_split ana sfi marked fr mr handled e
        = Except.ok (e, e.span :: handled))
    ∧ (∀ (ana : AnalysisResult) (sfi : List (Nat × Nat)) (marked : Nat → Bool)
       (fr : FnRecord) (mr : MonoRecord) (handled : List Nat) (e : CallExpr),
      lookupSpan sfi e.span = none →
      rewrite_expr_split ana sfi marked fr mr handled e = Except.ok (e, handled))
    ∧ (∀ (ana : AnalysisResult) (sfi : List (Nat × Nat)) (marked : Nat → Bool)
       (handled : List Nat) (src_def_id : Nat) (e : CallExpr) (fref_idx : Nat),
      lookupSpan sfi e.span = some fref_idx →
      handled.contains e.span = true →
      rewrite_expr_fallback ana sfi marked handled src_def_id e = Except.ok e)
    ∧ (∀ (ana : AnalysisResult) (sfi : List (Nat × Nat)) (marked : Nat → Bool)
       (handled : List Nat) (src_def_id : Nat) (e : CallExpr) (fref_idx : Nat)
       (src_fr : FnRecord) (fref : FuncRef) (src_mr : MonoRecord) (dmi : Nat)
       (dfr : FnRecord) (dmono : MonoRecord),
      lookupSpan sfi e.span = some fref_idx →
      handled.contains e.span = false →
      ana.find src_def_id = some src_fr →
      src_fr.func_refs.get? fref_idx = some fref →
      marked fref.def_id = true →
      src_fr.monos.get? 0 = some src_mr →
      src_mr.callee_mono_idxs.get? fref_idx = some dmi →
      ana.find fref.def_id = some dfr →
      dfr.monos.get? dmi = some dmono →
      rewrite_expr_fallback ana sfi marked handled src_def_id e
        = Except.ok (apply_suffix dmono.suffix e))
    ∧ (∀ (ana : AnalysisResult) (sfi : List (Nat × Nat)) (marked : Nat → Bool)
       (handled : List Nat) (src_def_id : Nat) (e : CallExpr) (fref_idx : Nat)
       (src_fr : FnRecord) (fref : FuncRef),
      lookupSpan sfi e.span = some fref_idx →
      handled.contains e.span = false →
      ana.find src_def_id = some src_fr →
      src_fr.func_refs.get? fref_idx = some fref →
      marked fref.def_id = false →
      rewrite_expr_fallback ana sfi marked handled src_def_id e = Except.ok e) := by
  refine ⟨fun suffix e => ⟨rfl, rfl, rfl⟩, ?_, ?_, ?_, ?_, ?_, ?_⟩
  · intro ana sfi marked fr mr handled e fref_idx fref cmi cfr cmono
      hlook hfref hm hcmi hcfr hcmono
    rw [rewrite_expr_split]
    simp only [hlook, hfref, exceptE, bind, Except.bind, hm, hcmi, hcfr, hcmono]
    rfl
  · intro ana sfi marked fr mr handled e fref_idx fref hlook hfref hm
    rw [rewrite_expr_split]
    simp only [hlook, hfref, exceptE, bind, Except.bind, hm]
    rfl
  · intro ana sfi marked fr mr handled e hlook
    rw [rewrite_expr_split]
    simp only [hlook]
  · intro ana sfi marked handled src_def_id e fref_idx hlook hmem
    rw [rewrite_expr_fallback]
    simp only [hlook, hmem, if_true]
  · intro ana sfi marked handled src_def_id e fref_idx src_fr fref src_mr dmi dfr dmono
      hlook hmem hsrc hfref hm hmr hdmi hdfr hdmono
    rw [rewrite_expr_fallback]
    simp only [hlook, hmem, hsrc, hfref, hm, hmr, hdmi, hdfr, hdmono,
      exceptE, bind, Except.bind]
    rfl
  · intro ana sfi marked handled src_def_id e fref_idx src_fr fref hlook hmem hsrc hfref hm
    rw [rewrite_expr_fallback]
    simp only [hlook, hmem, hsrc, hfref, hm, exceptE, bind, Except.bind]
    rfl

/-- Analysis result for the C9 witness: function 1 splits into two
monos (default and `mut`), its single call site (span 100) targets
function 2, which splits into monos with suffixes empty and `mut`;
function 3 is unsplit and calls function 2 at span 200, its first
mono record requiring callee mono 1. -/
def c9ana : AnalysisResult :=
  { fns := [
      (1, { func_refs := [⟨some 100, 2⟩], monos := [⟨"", [0]⟩, ⟨"mut", [1]⟩] }),
      (2, { func_refs := [], monos := [⟨"", []⟩, ⟨"mut", []⟩] }),
      (3, { func_refs := [⟨some 200, 2⟩], monos := [⟨"", [1]⟩] })] }

/-- Functions 1 and 2 are marked for splitting; function 3 is not. -/
def c9marked : Nat → Bool := fun id => id == 1 || id == 2

/-- The C9 witness crate: `f` (split) calls `g` (split) at span 100;
`h` (unsplit) calls `g` at span 200. -/
def c9krate : List FnLike :=
  [⟨1, "f", [⟨100, "g", 0⟩]⟩, ⟨2, "g", []⟩, ⟨3, "h", [⟨200, "g", 0⟩]⟩]

/-- Witness for C9: in the second clone of `f` the call site is
rewritten to `g`'s `mut` mono and recorded as handled; pass 2 skips
a handled span; the unsplit caller `h` is rewritten through its
first mono record to `g_mut`; and the whole
`do_split_variants` run rewrites every call site targeting the split
`g` exactly once (ghost counter 1 everywhere) and leaves nothing
unrewritten. -/
theorem claim_c9_witness :
    (rewrite_expr_split c9ana (build_span_fref_idx c9ana) c9marked
        { func_refs := [⟨some 100, 2⟩], monos := [⟨"", [0]⟩, ⟨"mut", [1]⟩] }
        ⟨"mut", [1]⟩ [] ⟨100, "g", 0⟩
      = Except.ok (apply_suffix "mut" ⟨100, "g", 0⟩, [100]))
    ∧ (rewrite_expr_fallback c9ana (build_span_fref_idx c9ana) c9marked
        [100, 100] 1 ⟨100, "g_mut", 1⟩ = Except.ok ⟨100, "g_mut", 1⟩)
    ∧ (rewrite_expr_fallback c9ana (build_span_fref_idx c9ana) c9marked
        [100, 100] 3 ⟨200, "g", 0⟩ = Except.ok (apply_suffix "mut" ⟨200, "g", 0⟩))
    ∧ (apply_suffix "mut" ⟨100, "g", 0⟩ = ({ span := 100, name := "g_mut", rewrites := 1 } : CallExpr))
    ∧ (do_split_variants c9ana c9marked c9krate
      = Except.ok
          [⟨1, "f", [⟨100, "g", 1⟩]⟩,
           ⟨1, "f_mut", [⟨100, "g_mut", 1⟩]⟩,
           ⟨2, "g", []⟩,
           ⟨2, "g_mut", []⟩,
           ⟨3, "h", [⟨200, "g_mut", 1⟩]⟩]) := by
  refine ⟨?_, ?_, ?_, rfl, rfl⟩
  · exact claim_c9.2.1 c9ana (build_span_fref_idx c9ana) c9marked
      { func_refs := [⟨some 100, 2⟩], monos := [⟨"", [0]⟩, ⟨"mut", [1]⟩] }
      ⟨"mut", [1]⟩ [] ⟨100, "g", 0⟩ 0 ⟨some 100, 2⟩ 1
      { func_refs := [], monos := [⟨"", []⟩, ⟨"mut", []⟩] } ⟨"mut", []⟩
      rfl rfl rfl rfl rfl rfl
  · exact claim_c9.2.2.2.2.1 c9ana (build_span_fref_idx c9ana) c9marked
      [100, 100] 1 ⟨100, "g_mut", 1⟩ 0 rfl rfl
  · exact claim_c9.2.2.2.2.2.1 c9ana (build_span_fref_idx c9ana) c9marked
      [100, 100] 3 ⟨200, "g", 0⟩ 0
      { func_refs := [⟨some 200, 2⟩], monos := [⟨"", [1]⟩] } ⟨some 200, 2⟩
      ⟨"", [1]⟩ 1 { func_refs := [], monos := [⟨"", []⟩, ⟨"mut", []⟩] } ⟨"mut", []⟩
      rfl rfl rfl rfl rfl rfl rfl rfl rfl
